import Mathlib

/-
Verification development for the MEDAI-Lite multi-agent health-risk
assessment core (backend/models/agents/*.py).

The Python code is shallowly embedded over exact rationals: every numeric
value handled by the evaluators is an `ℚ`, input dicts are association
lists from field names to values (numbers or booleans, the only value
shapes the evaluators' arithmetic accepts), and Python's `round(x, 2)`
(round-half-to-even on the exact value) is modelled by `pyRound2`.
Fallible code returns `Except String`; the aggregator catches those
errors exactly as the `try/except` in `assess_comprehensive_risk` does.
Wall-clock times and the assessment id, which come from `time.time()`
and `hashlib`, are passed in as oracle parameters (`Timing`).
-/

namespace MedAILite

/-- Value stored in a health-metrics dict: a number or a boolean
(Python `bool` is an `int` subclass, so comparisons coerce it to 0/1). -/
inductive HVal
  | num (q : ℚ)
  | boolV (b : Bool)
  deriving DecidableEq

/-- A health-metrics dict (`data` in the Python code), as an association
list with first-match lookup. -/
abbrev HData := List (String × HVal)

/-- Lookup of a key in the dict. -/
def findVal : HData → String → Option HVal
  | [], _ => none
  | (k, v) :: rest, key => if k = key then some v else findVal rest key

/-- Numeric coercion used when a stored value meets an arithmetic
comparison (`True` counts as 1, `False` as 0, as in Python). -/
def toNum : HVal → ℚ
  | .num q => q
  | .boolV b => if b then 1 else 0

/-- Python truthiness of a stored value. -/
def toTruthy : HVal → Bool
  | .num q => decide (q ≠ 0)
  | .boolV b => b

/-- Read a numeric field (`data[k]`); only evaluated under the guard
that the key is present. -/
def getNum (d : HData) (k : String) : ℚ :=
  match findVal d k with
  | some v => toNum v
  | none => 0

/-- Read a field as a truth value (`if data[k]:`). -/
def getTruthy (d : HData) (k : String) : Bool :=
  match findVal d k with
  | some v => toTruthy v
  | none => false

/-- BaseAgent.validate_data: the list of required fields absent from the
dict (`[field for field in required_fields if field not in data]`). -/
def missingFields (d : HData) (req : List String) : List String :=
  req.filter (fun f => (findVal d f).isNone)

/-- Python `', '.join(missing)`. -/
def joinComma : List String → String
  | [] => ""
  | [x] => x
  | x :: y :: rest => x ++ ", " ++ joinComma (y :: rest)

/-- The ValueError message raised by BaseAgent.validate_data. -/
def validationMsg (name : String) (missing : List String) : String :=
  name ++ ": Missing required fields: " ++ joinComma missing

/-- Python `round` to an integer: round half to even on the exact value. -/
def roundHalfEven (x : ℚ) : ℤ :=
  let n : ℤ := Int.floor x
  let frac : ℚ := x - n
  if frac < 1/2 then n
  else if 1/2 < frac then n + 1
  else if n % 2 = 0 then n
  else n + 1

/-- Python `round(x, 2)` on the exact rational value. -/
def pyRound2 (x : ℚ) : ℚ :=
  (roundHalfEven (100 * x) : ℚ) / 100

/-- The 25/50/75 risk-level ladder, written identically (inline) in
CardioAgent.assess_risk, MetabolicAgent.assess_risk, NeuroAgent.assess_risk
and AggregatorAgent._calculate_overall_index. -/
def riskLevelCut (s : ℚ) : String :=
  if s < 25 then "Low"
  else if s < 50 then "Moderate"
  else if s < 75 then "High"
  else "Critical"

/-- A value in an evaluator's `details` map: a plain string or a nested
string map (NeuroAgent's `brain_health_factors`). -/
inductive DVal
  | str (s : String)
  | smap (m : List (String × String))
  deriving DecidableEq

/-- Result dict returned by an evaluator's assess_risk (MetabolicAgent
additionally carries a `bmi` entry). -/
structure AgentResult where
  riskScore : ℚ
  riskLevel : String
  category : String
  bmi : Option ℚ
  breakdown : List (String × ℚ)
  details : List (String × DVal)
  deriving DecidableEq

/- ------------------------------------------------------------------
CardioAgent (backend/models/agents/cardio_agent.py)
------------------------------------------------------------------ -/

/-- Required fields of CardioAgent.assess_risk, in source order. -/
def cardioRequired : List String :=
  ["systolic", "diastolic", "cholesterol", "is_smoker", "age", "exercise_days"]

/-- CardioAgent._assess_blood_pressure. -/
def assessBloodPressure (systolic diastolic : ℚ) : ℚ :=
  if systolic < 120 ∧ diastolic < 80 then 10
  else if systolic < 130 ∧ diastolic < 85 then 20
  else if systolic < 140 ∨ diastolic < 90 then 40
  else if systolic < 160 ∨ diastolic < 100 then 60
  else if systolic < 180 ∨ diastolic < 110 then 80
  else 100

/-- CardioAgent._classify_blood_pressure. -/
def classifyBloodPressure (systolic diastolic : ℚ) : String :=
  if systolic < 120 ∧ diastolic < 80 then "Optimal"
  else if systolic < 130 ∧ diastolic < 85 then "Normal"
  else if systolic < 140 ∨ diastolic < 90 then "High Normal"
  else if systolic < 160 ∨ diastolic < 100 then "Stage 1 Hypertension"
  else if systolic < 180 ∨ diastolic < 110 then "Stage 2 Hypertension"
  else "Severe Hypertension"

/-- CardioAgent._assess_cholesterol. -/
def assessCholesterol (cholesterol : ℚ) : ℚ :=
  if cholesterol < 200 then 10
  else if cholesterol < 240 then 50
  else if cholesterol < 280 then 75
  else 95

/-- CardioAgent._classify_cholesterol. -/
def classifyCholesterol (cholesterol : ℚ) : String :=
  if cholesterol < 200 then "Desirable"
  else if cholesterol < 240 then "Borderline High"
  else if cholesterol < 280 then "High"
  else "Very High"

/-- CardioAgent._assess_age_risk. -/
def assessAgeRisk (age : ℚ) : ℚ :=
  if age < 30 then 10
  else if age < 40 then 20
  else if age < 50 then 35
  else if age < 60 then 50
  else if age < 70 then 70
  else 85

/-- CardioAgent._assess_exercise_risk. -/
def assessExerciseRisk (exerciseDays : ℚ) : ℚ :=
  if exerciseDays ≥ 5 then 10
  else if exerciseDays ≥ 3 then 30
  else if exerciseDays ≥ 1 then 50
  else 80

/-- Body of CardioAgent.assess_risk after validation, as a function of the
six field values it reads. -/
def cardioResult (systolic diastolic cholesterol : ℚ) (isSmoker : Bool)
    (age exerciseDays : ℚ) : AgentResult :=
  let bpRisk := assessBloodPressure systolic diastolic
  let cholesterolRisk := assessCholesterol cholesterol
  let smokingRisk : ℚ := if isSmoker then 80 else 10
  let ageRisk := assessAgeRisk age
  let exerciseRisk := assessExerciseRisk exerciseDays
  let riskScore :=
    bpRisk * 0.35 + cholesterolRisk * 0.30 + smokingRisk * 0.20 +
      ageRisk * 0.10 + exerciseRisk * 0.05
  { riskScore := pyRound2 riskScore
    riskLevel := riskLevelCut riskScore
    category := "Cardiovascular"
    bmi := none
    breakdown :=
      [("blood_pressure", bpRisk), ("cholesterol", cholesterolRisk),
       ("smoking", smokingRisk), ("age", ageRisk), ("exercise", exerciseRisk)]
    details :=
      [("bp_classification", .str (classifyBloodPressure systolic diastolic)),
       ("cholesterol_classification", .str (classifyCholesterol cholesterol))] }

/-- CardioAgent.assess_risk. -/
def cardioAssess (d : HData) : Except String AgentResult :=
  let missing := missingFields d cardioRequired
  if missing = [] then
    .ok (cardioResult (getNum d "systolic") (getNum d "diastolic")
      (getNum d "cholesterol") (getTruthy d "is_smoker")
      (getNum d "age") (getNum d "exercise_days"))
  else
    .error (validationMsg "CardioAgent" missing)

/-- CardioAgent.get_recommendations. -/
def cardioRecommendations (riskScore : ℚ) : List String :=
  if riskScore < 25 then
    ["Maintain your current healthy lifestyle",
     "Continue regular cardiovascular exercise",
     "Keep monitoring your blood pressure and cholesterol"]
  else if riskScore < 50 then
    ["Consult with a healthcare provider about your cardiovascular health",
     "Increase physical activity to at least 150 minutes per week",
     "Consider dietary changes to lower cholesterol",
     "Monitor blood pressure regularly"]
  else if riskScore < 75 then
    ["Schedule an appointment with a cardiologist",
     "Implement immediate lifestyle modifications",
     "Quit smoking if applicable",
     "Consider medication for blood pressure/cholesterol management",
     "Daily cardiovascular exercise as approved by your doctor"]
  else
    ["⚠️ URGENT: Seek immediate medical attention",
     "Schedule emergency consultation with a cardiologist",
     "Begin prescribed medication regimen",
     "Strict lifestyle modification under medical supervision",
     "Daily monitoring of vital signs"]

/- ------------------------------------------------------------------
MetabolicAgent (backend/models/agents/metabolic_agent.py)
------------------------------------------------------------------ -/

/-- Required fields of MetabolicAgent.assess_risk, in source order. -/
def metabolicRequired : List String :=
  ["weight_kg", "height_cm", "age", "exercise_days", "cholesterol"]

/-- MetabolicAgent._calculate_bmi (total on ℚ; the Python
`ZeroDivisionError` at `height_cm = 0` is raised in `metabolicAssess`). -/
def calculateBmi (weightKg heightCm : ℚ) : ℚ :=
  let heightM := heightCm / 100
  weightKg / (heightM ^ 2)

/-- MetabolicAgent._assess_bmi_risk. -/
def assessBmiRisk (bmi : ℚ) : ℚ :=
  if bmi < 18.5 then 40
  else if bmi < 25 then 10
  else if bmi < 30 then 45
  else if bmi < 35 then 70
  else if bmi < 40 then 85
  else 95

/-- MetabolicAgent._classify_bmi. -/
def classifyBmi (bmi : ℚ) : String :=
  if bmi < 18.5 then "Underweight"
  else if bmi < 25 then "Normal Weight"
  else if bmi < 30 then "Overweight"
  else if bmi < 35 then "Obese Class I"
  else if bmi < 40 then "Obese Class II"
  else "Obese Class III (Severe)"

/-- MetabolicAgent._assess_age_metabolic_risk. -/
def assessAgeMetabolicRisk (age : ℚ) : ℚ :=
  if age < 30 then 10
  else if age < 45 then 25
  else if age < 60 then 45
  else 65

/-- MetabolicAgent._assess_exercise_impact. -/
def assessExerciseImpact (exerciseDays : ℚ) : ℚ :=
  if exerciseDays ≥ 5 then 10
  else if exerciseDays ≥ 3 then 25
  else if exerciseDays ≥ 1 then 50
  else 80

/-- MetabolicAgent._assess_lipid_profile. -/
def assessLipidProfile (cholesterol : ℚ) : ℚ :=
  if cholesterol < 200 then 10
  else if cholesterol < 240 then 40
  else if cholesterol < 280 then 70
  else 90

/-- MetabolicAgent._check_metabolic_syndrome, as the list of the three
boolean indicator entries. -/
def checkMetabolicSyndrome (bmi cholesterol : ℚ) : List (String × String) :=
  [("elevated_bmi", if bmi ≥ 30 then "True" else "False"),
   ("elevated_cholesterol", if cholesterol ≥ 240 then "True" else "False"),
   ("risk_present", if bmi ≥ 30 ∨ cholesterol ≥ 240 then "True" else "False")]

/-- Body of MetabolicAgent.assess_risk after validation and after the BMI
division succeeded. -/
def metabolicResult (weightKg heightCm age exerciseDays cholesterol : ℚ) :
    AgentResult :=
  let bmi := calculateBmi weightKg heightCm
  let bmiRisk := assessBmiRisk bmi
  let ageRisk := assessAgeMetabolicRisk age
  let exerciseRisk := assessExerciseImpact exerciseDays
  let lipidRisk := assessLipidProfile cholesterol
  let riskScore :=
    bmiRisk * 0.40 + lipidRisk * 0.30 + exerciseRisk * 0.20 + ageRisk * 0.10
  { riskScore := pyRound2 riskScore
    riskLevel := riskLevelCut riskScore
    category := "Metabolic"
    bmi := some (pyRound2 bmi)
    breakdown :=
      [("bmi", bmiRisk), ("lipid_profile", lipidRisk),
       ("exercise", exerciseRisk), ("age", ageRisk)]
    details :=
      [("bmi_classification", .str (classifyBmi bmi)),
       ("metabolic_syndrome_indicators", .smap (checkMetabolicSyndrome bmi cholesterol))] }

/-- MetabolicAgent.assess_risk.  `weight_kg / (height_cm / 100) ** 2`
raises `ZeroDivisionError: float division by zero` exactly when
`height_cm = 0` (on exact rationals). -/
def metabolicAssess (d : HData) : Except String AgentResult :=
  let missing := missingFields d metabolicRequired
  if missing = [] then
    if getNum d "height_cm" = 0 then .error "float division by zero"
    else
      .ok (metabolicResult (getNum d "weight_kg") (getNum d "height_cm")
        (getNum d "age") (getNum d "exercise_days") (getNum d "cholesterol"))
  else
    .error (validationMsg "MetabolicAgent" missing)

/-- MetabolicAgent.get_recommendations. -/
def metabolicRecommendations (riskScore : ℚ) : List String :=
  if riskScore < 25 then
    ["Maintain your healthy weight and lifestyle",
     "Continue balanced diet and regular exercise",
     "Annual metabolic health screening recommended"]
  else if riskScore < 50 then
    ["Consult with a nutritionist for diet optimization",
     "Increase physical activity to 30-45 minutes daily",
     "Monitor weight and BMI regularly",
     "Consider metabolic panel blood work"]
  else if riskScore < 75 then
    ["Schedule consultation with endocrinologist",
     "Implement structured weight management program",
     "Regular monitoring of blood glucose and lipids",
     "Consider working with certified diabetes educator",
     "Increase exercise to 60 minutes daily, 5-6 days/week"]
  else
    ["⚠️ URGENT: Immediate medical evaluation required",
     "Comprehensive metabolic assessment needed",
     "May require medication management",
     "Intensive lifestyle modification program",
     "Regular medical monitoring essential"]

/- ------------------------------------------------------------------
NeuroAgent (backend/models/agents/neuro_agent.py)
------------------------------------------------------------------ -/

/-- Required fields of NeuroAgent.assess_risk, in source order. -/
def neuroRequired : List String :=
  ["age", "systolic", "diastolic", "cholesterol", "is_smoker", "exercise_days"]

/-- NeuroAgent._assess_cognitive_age_risk. -/
def assessCognitiveAgeRisk (age : ℚ) : ℚ :=
  if age < 40 then 5
  else if age < 50 then 15
  else if age < 60 then 30
  else if age < 70 then 50
  else if age < 80 then 70
  else 85

/-- The age-band increment (`risk += ...`) of NeuroAgent._assess_stroke_risk. -/
def strokeAgeIncrement (age : ℚ) : ℚ :=
  if age < 45 then 10
  else if age < 55 then 25
  else if age < 65 then 45
  else if age < 75 then 65
  else 80

/-- The blood-pressure increment of NeuroAgent._assess_stroke_risk. -/
def strokeBpIncrement (systolic diastolic : ℚ) : ℚ :=
  if systolic ≥ 180 ∨ diastolic ≥ 110 then 40
  else if systolic ≥ 160 ∨ diastolic ≥ 100 then 30
  else if systolic ≥ 140 ∨ diastolic ≥ 90 then 15
  else 0

/-- The cholesterol increment of NeuroAgent._assess_stroke_risk. -/
def strokeCholIncrement (cholesterol : ℚ) : ℚ :=
  if cholesterol ≥ 280 then 15
  else if cholesterol ≥ 240 then 10
  else 0

/-- NeuroAgent._assess_stroke_risk: `risk = 0`, age band added, BP addend
added, the running total multiplied by 1.4 if smoker, then the
cholesterol addend added, and `min(risk, 100)` returned. -/
def assessStrokeRisk (age systolic diastolic : ℚ) (isSmoker : Bool)
    (cholesterol : ℚ) : ℚ :=
  let afterBp := strokeAgeIncrement age + strokeBpIncrement systolic diastolic
  let afterSmoke := if isSmoker then afterBp * 1.4 else afterBp
  min (afterSmoke + strokeCholIncrement cholesterol) 100

/-- NeuroAgent._assess_neuroprotection. -/
def assessNeuroprotection (exerciseDays : ℚ) : ℚ :=
  if exerciseDays ≥ 5 then 10
  else if exerciseDays ≥ 3 then 25
  else if exerciseDays ≥ 1 then 50
  else 80

/-- NeuroAgent._assess_vascular_health. -/
def assessVascularHealth (systolic cholesterol : ℚ) : ℚ :=
  let bpComponent : ℚ :=
    if systolic < 120 then 10
    else if systolic < 140 then 30
    else if systolic < 160 then 60
    else 85
  let cholComponent : ℚ :=
    if cholesterol < 200 then 10
    else if cholesterol < 240 then 35
    else 60
  (bpComponent + cholComponent) / 2

/-- NeuroAgent._classify_stroke_risk. -/
def classifyStrokeRisk (strokeRisk : ℚ) : String :=
  if strokeRisk < 25 then "Low Risk"
  else if strokeRisk < 50 then "Moderate Risk"
  else if strokeRisk < 75 then "High Risk"
  else "Critical Risk"

/-- NeuroAgent._analyze_brain_health. -/
def analyzeBrainHealth (age systolic diastolic cholesterol : ℚ)
    (isSmoker : Bool) (exerciseDays : ℚ) : List (String × String) :=
  [("exercise_impact",
    if exerciseDays ≥ 4 then "Excellent - strong neuroprotection"
    else if exerciseDays ≥ 2 then "Moderate - some neuroprotection"
    else "Poor - limited neuroprotection"),
   ("vascular_status",
    if systolic < 130 ∧ cholesterol < 200 then "Healthy - supports brain health"
    else if systolic < 140 ∧ cholesterol < 240 then "Moderate - monitor for brain health"
    else "Compromised - may affect brain health"),
   ("smoking_impact",
    if isSmoker then "Negative - increases stroke and dementia risk"
    else "Positive - no tobacco-related brain risks")]

/-- Body of NeuroAgent.assess_risk after validation. -/
def neuroResult (age systolic diastolic cholesterol : ℚ) (isSmoker : Bool)
    (exerciseDays : ℚ) : AgentResult :=
  let cognitiveAgeRisk := assessCognitiveAgeRisk age
  let strokeRisk := assessStrokeRisk age systolic diastolic isSmoker cholesterol
  let neuroprotectiveFactors := assessNeuroprotection exerciseDays
  let vascularHealth := assessVascularHealth systolic cholesterol
  let riskScore :=
    cognitiveAgeRisk * 0.25 + strokeRisk * 0.35 + vascularHealth * 0.25 +
      neuroprotectiveFactors * 0.15
  { riskScore := pyRound2 riskScore
    riskLevel := riskLevelCut riskScore
    category := "Neurological"
    bmi := none
    breakdown :=
      [("cognitive_aging", cognitiveAgeRisk), ("stroke_risk", strokeRisk),
       ("vascular_health", vascularHealth), ("neuroprotection", neuroprotectiveFactors)]
    details :=
      [("stroke_risk_category", .str (classifyStrokeRisk strokeRisk)),
       ("brain_health_factors",
        .smap (analyzeBrainHealth age systolic diastolic cholesterol isSmoker exerciseDays))] }

/-- NeuroAgent.assess_risk. -/
def neuroAssess (d : HData) : Except String AgentResult :=
  let missing := missingFields d neuroRequired
  if missing = [] then
    .ok (neuroResult (getNum d "age") (getNum d "systolic")
      (getNum d "diastolic") (getNum d "cholesterol")
      (getTruthy d "is_smoker") (getNum d "exercise_days"))
  else
    .error (validationMsg "NeuroAgent" missing)

/-- NeuroAgent.get_recommendations. -/
def neuroRecommendations (riskScore : ℚ) : List String :=
  if riskScore < 25 then
    ["Maintain brain-healthy lifestyle habits",
     "Continue regular physical exercise for cognitive health",
     "Engage in mentally stimulating activities",
     "Monitor cardiovascular health (impacts brain health)"]
  else if riskScore < 50 then
    ["Increase cardiovascular exercise (proven neuroprotective)",
     "Consider cognitive training exercises",
     "Monitor and manage blood pressure closely",
     "Ensure adequate sleep (7-9 hours nightly)",
     "Mediterranean diet recommended for brain health"]
  else if riskScore < 75 then
    ["Schedule consultation with neurologist",
     "Comprehensive vascular health assessment needed",
     "Intensive blood pressure management required",
     "Cognitive baseline testing recommended",
     "Quit smoking immediately if applicable",
     "Daily physical activity essential"]
  else
    ["⚠️ URGENT: Immediate neurological evaluation required",
     "High stroke risk - emergency medical consultation needed",
     "Comprehensive brain health assessment",
     "Aggressive cardiovascular risk factor management",
     "May require preventive medication (antiplatelet, statins)",
     "Consider carotid artery screening"]

/- ------------------------------------------------------------------
Spec-side definitions (written from the spec text, for the refinement
claims about the stroke-risk ordering and the blood-pressure ladder)
------------------------------------------------------------------ -/

/-- Spec 4.3: the stroke-risk age band. -/
def specStrokeAgeBand (age : ℚ) : ℚ :=
  if age < 45 then 10
  else if age < 55 then 25
  else if age < 65 then 45
  else if age < 75 then 65
  else 80

/-- Spec 4.3: the stroke-risk blood-pressure addend. -/
def specStrokeBpAddend (systolic diastolic : ℚ) : ℚ :=
  if systolic ≥ 180 ∨ diastolic ≥ 110 then 40
  else if systolic ≥ 160 ∨ diastolic ≥ 100 then 30
  else if systolic ≥ 140 ∨ diastolic ≥ 90 then 15
  else 0

/-- Spec 4.3: the stroke-risk cholesterol addend (≥280 adds 15, ≥240 adds
10, otherwise 0). -/
def specStrokeCholAddend (cholesterol : ℚ) : ℚ :=
  if cholesterol ≥ 280 then 15
  else if cholesterol ≥ 240 then 10
  else 0

/-- Spec 4.3: stroke risk before the cap, in the spec's stated order —
age band plus BP addend, the running total multiplied by 1.4 if the
subject is a smoker, then the cholesterol addend added. -/
def specStrokePreCap (age systolic diastolic : ℚ) (isSmoker : Bool)
    (cholesterol : ℚ) : ℚ :=
  (specStrokeAgeBand age + specStrokeBpAddend systolic diastolic) *
      (if isSmoker then 1.4 else 1) +
    specStrokeCholAddend cholesterol

/-- Spec 4.1: the blood-pressure score ladder, first matching bucket wins. -/
def specBpScore (systolic diastolic : ℚ) : ℚ :=
  if systolic < 120 ∧ diastolic < 80 then 10
  else if systolic < 130 ∧ diastolic < 85 then 20
  else if systolic < 140 ∨ diastolic < 90 then 40
  else if systolic < 160 ∨ diastolic < 100 then 60
  else if systolic < 180 ∨ diastolic < 110 then 80
  else 100

/-- Spec 4.1: the label attached to each blood-pressure score bucket
(Optimal/Normal/High Normal/Stage 1/Stage 2/Severe). -/
def specBpLabelOfScore (score : ℚ) : String :=
  if score = 10 then "Optimal"
  else if score = 20 then "Normal"
  else if score = 40 then "High Normal"
  else if score = 60 then "Stage 1 Hypertension"
  else if score = 80 then "Stage 2 Hypertension"
  else "Severe Hypertension"

/- ------------------------------------------------------------------
BaseAgent.assess_with_timing (backend/models/agents/base_agent.py)
------------------------------------------------------------------ -/

/-- Result of assess_with_timing: the assess_risk result plus the
metadata the wrapper attaches (`agent_name`, `processing_time_ms`,
`recommendations`). -/
structure TimedResult where
  base : AgentResult
  agentName : String
  processingTimeMs : ℚ
  recommendations : List String
  deriving DecidableEq

/-- BaseAgent.assess_with_timing.  The elapsed wall-clock seconds are an
oracle input; a failure of assess_risk propagates (nothing is caught
here).  Recommendations are generated from the returned `risk_score`. -/
def withTiming (name : String) (assess : HData → Except String AgentResult)
    (recs : ℚ → List String) (d : HData) (elapsedSec : ℚ) :
    Except String TimedResult :=
  match assess d with
  | .error e => .error e
  | .ok r =>
      .ok { base := r
            agentName := name
            processingTimeMs := pyRound2 (elapsedSec * 1000)
            recommendations := recs r.riskScore }

/-- CardioAgent.assess_with_timing. -/
def cardioTimed (d : HData) (elapsedSec : ℚ) : Except String TimedResult :=
  withTiming "CardioAgent" cardioAssess cardioRecommendations d elapsedSec

/-- MetabolicAgent.assess_with_timing. -/
def metabolicTimed (d : HData) (elapsedSec : ℚ) : Except String TimedResult :=
  withTiming "MetabolicAgent" metabolicAssess metabolicRecommendations d elapsedSec

/-- NeuroAgent.assess_with_timing. -/
def neuroTimed (d : HData) (elapsedSec : ℚ) : Except String TimedResult :=
  withTiming "NeuroAgent" neuroAssess neuroRecommendations d elapsedSec

/- ------------------------------------------------------------------
AggregatorAgent (backend/models/agents/aggregator_agent.py)
------------------------------------------------------------------ -/

/-- One entry of `agent_results`: either a full timed result, or the
error-marked substitute dict `{'error': str(e), 'risk_score': None,
'agent_name': name}` built in the aggregator's except-branch. -/
inductive AgentOutcome
  | ok (r : TimedResult)
  | err (msg : String)
  deriving DecidableEq

/-- The try/except around one agent call in assess_comprehensive_risk. -/
def toOutcome : Except String TimedResult → AgentOutcome
  | .ok r => .ok r
  | .error e => .err e

/-- The fixed weight of each registered agent (`self.agents[name].weight`). -/
def agentWeight : String → ℚ
  | "cardio" => 0.35
  | "metabolic" => 0.35
  | "neuro" => 0.30
  | _ => 0

/-- Names of the registered agents, in dict insertion order. -/
def agentNames : List String := ["cardio", "metabolic", "neuro"]

/-- Result of AggregatorAgent._calculate_overall_index. -/
structure OverallIndex where
  score : ℚ
  level : String
  weightsUsed : List (String × ℚ)
  deriving DecidableEq

/-- AggregatorAgent._calculate_overall_index: weighted average over the
non-error results; score 0 and level "Unknown" when every agent failed. -/
def calculateOverallIndex (results : List (String × AgentOutcome)) : OverallIndex :=
  let acc := results.foldl
    (fun (a : ℚ × ℚ) p =>
      match p.2 with
      | .ok r => (a.1 + r.base.riskScore * agentWeight p.1, a.2 + agentWeight p.1)
      | .err _ => a)
    (0, 0)
  let weightedSum := acc.1
  let totalWeight := acc.2
  if totalWeight = 0 then
    { score := 0, level := "Unknown", weightsUsed := [] }
  else
    let overallScore := weightedSum / totalWeight
    { score := pyRound2 overallScore
      level := riskLevelCut overallScore
      weightsUsed :=
        (results.filter (fun p => match p.2 with | .ok _ => true | .err _ => false)).map
          (fun p => (p.1, agentWeight p.1)) }

/-- Urgent marker test: `rec.startswith('⚠️')` — the first two characters
(the warning sign and its variation selector) equal those of `'⚠️'`. -/
def isUrgent (rec : String) : Bool := decide (rec.data.take 2 = "⚠️".data)

/-- One step of the duplicate-removing loops in
_integrate_recommendations: append `rec` unless already seen. -/
def appendUnique (acc : List String) (rec : String) : List String :=
  if rec ∈ acc then acc else acc ++ [rec]

/-- A full duplicate-removing loop over `l`, continuing from `acc`. -/
def dedupInto (acc : List String) (l : List String) : List String :=
  l.foldl appendUnique acc

/-- All recommendation lines of the non-error results, in agent order
(error entries have no `recommendations` key and are skipped). -/
def collectRecs (results : List (String × AgentOutcome)) : List String :=
  results.foldr
    (fun p acc =>
      match p.2 with
      | .ok r => r.recommendations ++ acc
      | .err _ => acc)
    []

/-- AggregatorAgent._integrate_recommendations. -/
def integrateRecommendations (results : List (String × AgentOutcome)) : List String :=
  let allRecs := collectRecs results
  let criticalRecommendations := allRecs.filter (fun r => isUrgent r)
  let regularRecommendations := allRecs.filter (fun r => !(isUrgent r))
  let integrated := dedupInto (dedupInto [] criticalRecommendations) regularRecommendations
  let summary :=
    if criticalRecommendations = [] then
      "Continue maintaining healthy lifestyle habits across all health domains"
    else
      "Multiple health concerns identified - comprehensive medical evaluation recommended"
  (summary :: integrated).take 15

/-- One entry of the critical-areas list. -/
structure CriticalArea where
  category : String
  riskLevel : String
  riskScore : ℚ
  agent : String
  priority : String
  deriving DecidableEq

/-- Stable descending insertion by risk score (later elements stay after
earlier ones with an equal score, like Python's stable `sort`). -/
def insertByScoreDesc (x : CriticalArea) : List CriticalArea → List CriticalArea
  | [] => [x]
  | y :: ys => if x.riskScore > y.riskScore then x :: y :: ys else y :: insertByScoreDesc x ys

/-- AggregatorAgent._identify_critical_areas. -/
def identifyCriticalAreas (results : List (String × AgentOutcome)) : List CriticalArea :=
  let critical := results.foldr
    (fun p acc =>
      match p.2 with
      | .err _ => acc
      | .ok r =>
          if r.base.riskLevel = "High" ∨ r.base.riskLevel = "Critical" ∨
              r.base.riskScore ≥ 75 then
            { category := r.base.category
              riskLevel := r.base.riskLevel
              riskScore := r.base.riskScore
              agent := p.1
              priority := if r.base.riskScore ≥ 75 then "urgent" else "high" } :: acc
          else acc)
    []
  critical.foldl (fun sorted x => insertByScoreDesc x sorted) []

/-- Oracle inputs of one assess_comprehensive_risk call: the wall-clock
spans measured by `time.time()` and the hash-derived assessment id. -/
structure Timing where
  cardioSec : ℚ
  metabolicSec : ℚ
  neuroSec : ℚ
  totalSec : ℚ
  timestamp : ℚ
  assessId : String
  deriving DecidableEq

/-- One entry of the aggregator's process-lifetime `assessment_log`. -/
structure LogEntry where
  timestamp : ℚ
  totalTimeMs : ℚ
  overallScore : ℚ
  deriving DecidableEq

/-- Mutable state of one AggregatorAgent instance: its own assessment
log and each owned agent's performance log. -/
structure AggState where
  assessmentLog : List LogEntry
  cardioLog : List ℚ
  metabolicLog : List ℚ
  neuroLog : List ℚ
  deriving DecidableEq

/-- A freshly constructed AggregatorAgent (all logs empty). -/
def freshAggState : AggState := ⟨[], [], [], []⟩

/-- The returned comprehensive-assessment dict. -/
structure AggregateResult where
  overallHealthIndex : ℚ
  overallRiskLevel : String
  agentAssessments : List (String × AgentOutcome)
  criticalAreas : List CriticalArea
  integratedRecommendations : List String
  totalTimeMs : ℚ
  performanceStatus : String
  agentTimes : List (String × ℚ)
  timestamp : ℚ
  assessmentId : String
  agentsUsed : List String
  deriving DecidableEq

/-- `result.get('processing_time_ms', 0)` on an agent_results entry. -/
def outcomeTimeMs : AgentOutcome → ℚ
  | .ok r => r.processingTimeMs
  | .err _ => 0

/-- Per-agent performance-log append performed inside assess_with_timing
(skipped when assess_risk raised). -/
def logAppend (o : Except String TimedResult) (log : List ℚ) : List ℚ :=
  match o with
  | .ok r => log ++ [r.processingTimeMs]
  | .error _ => log

/-- AggregatorAgent.assess_comprehensive_risk: runs all three agents with
fault isolation, combines their results, and appends one entry to the
assessment log. -/
def assessStep (d : HData) (t : Timing) (st : AggState) :
    AggregateResult × AggState :=
  let rc := cardioTimed d t.cardioSec
  let rm := metabolicTimed d t.metabolicSec
  let rn := neuroTimed d t.neuroSec
  let results : List (String × AgentOutcome) :=
    [("cardio", toOutcome rc), ("metabolic", toOutcome rm), ("neuro", toOutcome rn)]
  let overallIndex := calculateOverallIndex results
  let integrated := integrateRecommendations results
  let criticalAreas := identifyCriticalAreas results
  let totalTimeMs := pyRound2 (t.totalSec * 1000)
  let performanceStatus := if t.totalSec ≤ 3 then "optimal" else "degraded"
  let result : AggregateResult :=
    { overallHealthIndex := overallIndex.score
      overallRiskLevel := overallIndex.level
      agentAssessments := results
      criticalAreas := criticalAreas
      integratedRecommendations := integrated
      totalTimeMs := totalTimeMs
      performanceStatus := performanceStatus
      agentTimes := results.map (fun p => (p.1, outcomeTimeMs p.2))
      timestamp := t.timestamp
      assessmentId := t.assessId
      agentsUsed := agentNames }
  let st' : AggState :=
    { assessmentLog :=
        st.assessmentLog ++
          [{ timestamp := t.timestamp, totalTimeMs := totalTimeMs,
             overallScore := overallIndex.score }]
      cardioLog := logAppend rc st.cardioLog
      metabolicLog := logAppend rm st.metabolicLog
      neuroLog := logAppend rn st.neuroLog }
  (result, st')

/-- A sequence of assess_comprehensive_risk calls on one instance. -/
def runAssessments (runs : List (HData × Timing)) (st : AggState) : AggState :=
  runs.foldl (fun s p => (assessStep p.1 p.2 s).2) st

/-- Return value of AggregatorAgent.get_overall_performance_stats
(`none` fields are the keys absent from the empty-log dict, and
`performance_target_met = none` is Python's `None`). -/
structure OverallStats where
  totalAssessments : ℕ
  avgTimeMs : ℚ
  maxTimeMs : Option ℚ
  minTimeMs : Option ℚ
  performanceTargetMet : Option Bool
  targetMs : Option ℚ
  deriving DecidableEq

/-- Python `max(times)` over a nonempty list (head default unused). -/
def listMaxQ (l : List ℚ) : ℚ := l.foldl max (l.headD 0)

/-- Python `min(times)` over a nonempty list. -/
def listMinQ (l : List ℚ) : ℚ := l.foldl min (l.headD 0)

/-- AggregatorAgent.get_overall_performance_stats. -/
def getOverallPerformanceStats (st : AggState) : OverallStats :=
  if st.assessmentLog = [] then
    { totalAssessments := 0, avgTimeMs := 0, maxTimeMs := none,
      minTimeMs := none, performanceTargetMet := none, targetMs := none }
  else
    let times := st.assessmentLog.map (fun e => e.totalTimeMs)
    let avgTime := times.sum / times.length
    { totalAssessments := st.assessmentLog.length
      avgTimeMs := pyRound2 avgTime
      maxTimeMs := some (listMaxQ times)
      minTimeMs := some (listMinQ times)
      performanceTargetMet := some (decide (avgTime ≤ 3000))
      targetMs := some 3000 }

/- ------------------------------------------------------------------
Dict-operation level embedding.  Every access the Python code makes to
the caller's `data` dict is a read (`field in data` membership tests in
validate_data, `data[...]` item reads in the evaluators); the code never
assigns into `data`.  To settle the frame claim, the same computations
are re-expressed below with the dict threaded as explicit state through
the primitive dict operations, so that preservation of the dict is a
statement about the composed operation sequence.
------------------------------------------------------------------ -/

/-- Primitive dict operation: the membership tests of validate_data over
the required-field list. -/
def readMissingOp (req : List String) (d : HData) : List String × HData :=
  (missingFields d req, d)

/-- Primitive dict operation: a numeric item read `data[k]`. -/
def readNumOp (k : String) (d : HData) : ℚ × HData :=
  (getNum d k, d)

/-- Primitive dict operation: a truthiness item read `if data[k]:`. -/
def readTruthyOp (k : String) (d : HData) : Bool × HData :=
  (getTruthy d k, d)

/-- CardioAgent.assess_risk at dict-operation granularity. -/
def cardioAssessSt (d0 : HData) : Except String AgentResult × HData :=
  let (missing, d1) := readMissingOp cardioRequired d0
  let (systolic, d2) := readNumOp "systolic" d1
  let (diastolic, d3) := readNumOp "diastolic" d2
  let (cholesterol, d4) := readNumOp "cholesterol" d3
  let (isSmoker, d5) := readTruthyOp "is_smoker" d4
  let (age, d6) := readNumOp "age" d5
  let (exerciseDays, d7) := readNumOp "exercise_days" d6
  (if missing = [] then
    .ok (cardioResult systolic diastolic cholesterol isSmoker age exerciseDays)
  else .error (validationMsg "CardioAgent" missing), d7)

/-- MetabolicAgent.assess_risk at dict-operation granularity. -/
def metabolicAssessSt (d0 : HData) : Except String AgentResult × HData :=
  let (missing, d1) := readMissingOp metabolicRequired d0
  let (weightKg, d2) := readNumOp "weight_kg" d1
  let (heightCm, d3) := readNumOp "height_cm" d2
  let (age, d4) := readNumOp "age" d3
  let (exerciseDays, d5) := readNumOp "exercise_days" d4
  let (cholesterol, d6) := readNumOp "cholesterol" d5
  (if missing = [] then
    if heightCm = 0 then .error "float division by zero"
    else .ok (metabolicResult weightKg heightCm age exerciseDays cholesterol)
  else .error (validationMsg "MetabolicAgent" missing), d6)

/-- NeuroAgent.assess_risk at dict-operation granularity. -/
def neuroAssessSt (d0 : HData) : Except String AgentResult × HData :=
  let (missing, d1) := readMissingOp neuroRequired d0
  let (age, d2) := readNumOp "age" d1
  let (systolic, d3) := readNumOp "systolic" d2
  let (diastolic, d4) := readNumOp "diastolic" d3
  let (cholesterol, d5) := readNumOp "cholesterol" d4
  let (isSmoker, d6) := readTruthyOp "is_smoker" d5
  let (exerciseDays, d7) := readNumOp "exercise_days" d6
  (if missing = [] then
    .ok (neuroResult age systolic diastolic cholesterol isSmoker exerciseDays)
  else .error (validationMsg "NeuroAgent" missing), d7)

/-- BaseAgent.assess_with_timing at dict-operation granularity (the
wrapper itself touches only its own `result` dict, never `data`). -/
def withTimingSt (name : String)
    (assessSt : HData → Except String AgentResult × HData)
    (recs : ℚ → List String) (elapsedSec : ℚ) (d0 : HData) :
    Except String TimedResult × HData :=
  let (r0, d1) := assessSt d0
  (match r0 with
   | .error e => .error e
   | .ok r =>
       .ok { base := r, agentName := name,
             processingTimeMs := pyRound2 (elapsedSec * 1000),
             recommendations := recs r.riskScore }, d1)

/-- AggregatorAgent.assess_comprehensive_risk at dict-operation
granularity: the input dict is threaded through the three agent calls;
all remaining work reads only the collected results. -/
def assessStepSt (d0 : HData) (t : Timing) (st : AggState) :
    (AggregateResult × AggState) × HData :=
  let (rc, d1) := withTimingSt "CardioAgent" cardioAssessSt cardioRecommendations t.cardioSec d0
  let (rm, d2) := withTimingSt "MetabolicAgent" metabolicAssessSt metabolicRecommendations t.metabolicSec d1
  let (rn, d3) := withTimingSt "NeuroAgent" neuroAssessSt neuroRecommendations t.neuroSec d2
  let results : List (String × AgentOutcome) :=
    [("cardio", toOutcome rc), ("metabolic", toOutcome rm), ("neuro", toOutcome rn)]
  let overallIndex := calculateOverallIndex results
  let result : AggregateResult :=
    { overallHealthIndex := overallIndex.score
      overallRiskLevel := overallIndex.level
      agentAssessments := results
      criticalAreas := identifyCriticalAreas results
      integratedRecommendations := integrateRecommendations results
      totalTimeMs := pyRound2 (t.totalSec * 1000)
      performanceStatus := if t.totalSec ≤ 3 then "optimal" else "degraded"
      agentTimes := results.map (fun p => (p.1, outcomeTimeMs p.2))
      timestamp := t.timestamp
      assessmentId := t.assessId
      agentsUsed := agentNames }
  let st' : AggState :=
    { assessmentLog :=
        st.assessmentLog ++
          [{ timestamp := t.timestamp, totalTimeMs := pyRound2 (t.totalSec * 1000),
             overallScore := overallIndex.score }]
      cardioLog := logAppend rc st.cardioLog
      metabolicLog := logAppend rm st.metabolicLog
      neuroLog := logAppend rn st.neuroLog }
  ((result, st'), d3)

/- ------------------------------------------------------------------
Further definitions used by the claim statements
------------------------------------------------------------------ -/

/-- A rational that is an integer. -/
def QInt (q : ℚ) : Prop := ∃ k : ℤ, q = (k : ℚ)

/-- The claim's contract on one evaluator result: composite score in
[0, 100] and the returned level matching the 25/50/75 cut against the
returned score, boundaries inclusive on the upper band. -/
def ScoreLevelContract (r : AgentResult) : Prop :=
  0 ≤ r.riskScore ∧ r.riskScore ≤ 100 ∧
  (r.riskLevel = "Low" ↔ r.riskScore < 25) ∧
  (r.riskLevel = "Moderate" ↔ 25 ≤ r.riskScore ∧ r.riskScore < 50) ∧
  (r.riskLevel = "High" ↔ 50 ≤ r.riskScore ∧ r.riskScore < 75) ∧
  (r.riskLevel = "Critical" ↔ 75 ≤ r.riskScore)

/-- A complete sample metrics dict (all eight HealthMetrics fields). -/
def sampleMetrics : HData :=
  [("age", .num 30), ("systolic", .num 115), ("diastolic", .num 75),
   ("cholesterol", .num 180), ("is_smoker", .boolV false),
   ("exercise_days", .num 5), ("weight_kg", .num 70), ("height_cm", .num 175)]

/-- Two dicts agree on a field list when lookup is identical on it (same
presence and, when present, same value). -/
def AgreesOn (req : List String) (d1 d2 : HData) : Prop :=
  ∀ k ∈ req, findVal d1 k = findVal d2 k

/-- A fixed timing oracle for closed instances. -/
def sampleTiming : Timing :=
  { cardioSec := 1/100, metabolicSec := 1/100, neuroSec := 1/100,
    totalSec := 1/20, timestamp := 1700000000, assessId := "a3f2b4c5d6e7f809" }

/-- The (weight, score) pairs of the successful evaluators, read off the
returned per-agent assessments. -/
def okWeightPairs (results : List (String × AgentOutcome)) : List (ℚ × ℚ) :=
  results.filterMap (fun p =>
    match p.2 with
    | .ok r => some (agentWeight p.1, r.base.riskScore)
    | .err _ => none)

/-- The original claim's ordering property: every urgent-marked line
comes before every non-urgent line of the list. -/
def UrgentFirst (l : List String) : Prop :=
  ∀ i j : Fin l.length, isUrgent (l.get i) = true → isUrgent (l.get j) = false →
    (i : ℕ) < (j : ℕ)

/-- A metrics dict on which every evaluator lands in the Critical tier. -/
def criticalMetrics : HData :=
  [("age", .num 80), ("systolic", .num 200), ("diastolic", .num 120),
   ("cholesterol", .num 300), ("is_smoker", .boolV true), ("exercise_days", .num 0),
   ("weight_kg", .num 120), ("height_cm", .num 150)]

/-- A metrics dict where the Cardiovascular and Neurological fields are
present but the Metabolic ones (weight, height) are absent. -/
def partialMetrics : HData :=
  [("age", .num 30), ("systolic", .num 115), ("diastolic", .num 75),
   ("cholesterol", .num 180), ("is_smoker", .boolV false), ("exercise_days", .num 5)]

/- ------------------------------------------------------------------
Helper lemmas: rounding and integrality
------------------------------------------------------------------ -/

theorem QInt.add {a b : ℚ} (ha : QInt a) (hb : QInt b) : QInt (a + b) := by
  obtain ⟨k, rfl⟩ := ha
  obtain ⟨l, rfl⟩ := hb
  exact ⟨k + l, by push_cast; ring⟩

theorem QInt.min {a b : ℚ} (ha : QInt a) (hb : QInt b) : QInt (min a b) := by
  rcases le_total a b with h | h
  · rwa [min_eq_left h]
  · rwa [min_eq_right h]

theorem roundHalfEven_le (x : ℚ) : (roundHalfEven x : ℚ) ≤ x + 1/2 := by
  have h1 := Int.floor_le x
  have h2 := Int.lt_floor_add_one x
  simp only [roundHalfEven]
  split_ifs <;> push_cast <;> linarith

theorem le_roundHalfEven (x : ℚ) : x - 1/2 ≤ (roundHalfEven x : ℚ) := by
  have h1 := Int.floor_le x
  have h2 := Int.lt_floor_add_one x
  simp only [roundHalfEven]
  split_ifs <;> push_cast <;> linarith

theorem pyRound2_le (x : ℚ) : pyRound2 x ≤ x + 1/200 := by
  have h := roundHalfEven_le (100 * x)
  simp only [pyRound2]
  linarith

theorem le_pyRound2 (x : ℚ) : x - 1/200 ≤ pyRound2 x := by
  have h := le_roundHalfEven (100 * x)
  simp only [pyRound2]
  linarith

/-- Rounding to 2 decimals is the identity on values that already have at
most 2 decimals. -/
theorem pyRound2_eq_self {x : ℚ} (h : QInt (100 * x)) : pyRound2 x = x := by
  obtain ⟨m, hm⟩ := h
  simp only [pyRound2, roundHalfEven, hm, Int.floor_intCast, sub_self]
  rw [if_pos (by norm_num : (0 : ℚ) < 1/2)]
  linarith

/-- On a value with granularity 1/40, rounding to 2 decimals never moves
the value across an integer cut X. -/
theorem pyRound2_lt_iff {x : ℚ} (X : ℤ) (h : QInt (40 * x)) :
    pyRound2 x < X ↔ x < X := by
  obtain ⟨m, hm⟩ := h
  constructor
  · intro hlt
    by_contra hge
    push_neg at hge
    rcases eq_or_lt_of_le hge with heq | hgt
    · rw [← heq, pyRound2_eq_self ⟨100 * X, by push_cast; ring⟩] at hlt
      exact lt_irrefl _ hlt
    · have hmgt : (40 * (X : ℚ)) < (m : ℚ) := by rw [← hm]; linarith
      have hstep : (40 * X + 1 : ℤ) ≤ m := Int.add_one_le_of_lt (by exact_mod_cast hmgt)
      have hq : ((40 * X + 1 : ℤ) : ℚ) ≤ (m : ℚ) := by exact_mod_cast hstep
      push_cast at hq
      have hlow := le_pyRound2 x
      have hXlt : (X : ℚ) < pyRound2 x := by linarith
      linarith
  · intro hlt
    have hmlt : (m : ℚ) < 40 * X := by rw [← hm]; linarith
    have hstep : m ≤ 40 * X - 1 := Int.le_sub_one_of_lt (by exact_mod_cast hmlt)
    have hq : (m : ℚ) ≤ ((40 * X - 1 : ℤ) : ℚ) := by exact_mod_cast hstep
    push_cast at hq
    have hup := pyRound2_le x
    linarith

/- ------------------------------------------------------------------
Helper lemmas: ladder sub-score ranges and integrality
------------------------------------------------------------------ -/

theorem assessBloodPressure_QInt (s d : ℚ) : QInt (assessBloodPressure s d) := by
  simp only [assessBloodPressure]
  split_ifs
  · exact ⟨10, by norm_num⟩
  · exact ⟨20, by norm_num⟩
  · exact ⟨40, by norm_num⟩
  · exact ⟨60, by norm_num⟩
  · exact ⟨80, by norm_num⟩
  · exact ⟨100, by norm_num⟩

theorem assessBloodPressure_bounds (s d : ℚ) :
    10 ≤ assessBloodPressure s d ∧ assessBloodPressure s d ≤ 100 := by
  simp only [assessBloodPressure]
  split_ifs <;> norm_num

theorem assessCholesterol_QInt (c : ℚ) : QInt (assessCholesterol c) := by
  simp only [assessCholesterol]
  split_ifs
  · exact ⟨10, by norm_num⟩
  · exact ⟨50, by norm_num⟩
  · exact ⟨75, by norm_num⟩
  · exact ⟨95, by norm_num⟩

theorem assessCholesterol_bounds (c : ℚ) :
    10 ≤ assessCholesterol c ∧ assessCholesterol c ≤ 95 := by
  simp only [assessCholesterol]
  split_ifs <;> norm_num

theorem smokingRisk_QInt (b : Bool) : QInt (if b then (80 : ℚ) else 10) := by
  cases b
  · exact ⟨10, by norm_num⟩
  · exact ⟨80, by norm_num⟩

theorem smokingRisk_bounds (b : Bool) :
    10 ≤ (if b then (80 : ℚ) else 10) ∧ (if b then (80 : ℚ) else 10) ≤ 80 := by
  cases b <;> norm_num

theorem assessAgeRisk_QInt (a : ℚ) : QInt (assessAgeRisk a) := by
  simp only [assessAgeRisk]
  split_ifs
  · exact ⟨10, by norm_num⟩
  · exact ⟨20, by norm_num⟩
  · exact ⟨35, by norm_num⟩
  · exact ⟨50, by norm_num⟩
  · exact ⟨70, by norm_num⟩
  · exact ⟨85, by norm_num⟩

theorem assessAgeRisk_bounds (a : ℚ) :
    10 ≤ assessAgeRisk a ∧ assessAgeRisk a ≤ 85 := by
  simp only [assessAgeRisk]
  split_ifs <;> norm_num

theorem assessExerciseRisk_QInt (e : ℚ) : QInt (assessExerciseRisk e) := by
  simp only [assessExerciseRisk]
  split_ifs
  · exact ⟨10, by norm_num⟩
  · exact ⟨30, by norm_num⟩
  · exact ⟨50, by norm_num⟩
  · exact ⟨80, by norm_num⟩

theorem assessExerciseRisk_bounds (e : ℚ) :
    10 ≤ assessExerciseRisk e ∧ assessExerciseRisk e ≤ 80 := by
  simp only [assessExerciseRisk]
  split_ifs <;> norm_num

theorem assessBmiRisk_QInt (b : ℚ) : QInt (assessBmiRisk b) := by
  simp only [assessBmiRisk]
  split_ifs
  · exact ⟨40, by norm_num⟩
  · exact ⟨10, by norm_num⟩
  · exact ⟨45, by norm_num⟩
  · exact ⟨70, by norm_num⟩
  · exact ⟨85, by norm_num⟩
  · exact ⟨95, by norm_num⟩

theorem assessBmiRisk_bounds (b : ℚ) :
    10 ≤ assessBmiRisk b ∧ assessBmiRisk b ≤ 95 := by
  simp only [assessBmiRisk]
  split_ifs <;> norm_num

theorem assessLipidProfile_QInt (c : ℚ) : QInt (assessLipidProfile c) := by
  simp only [assessLipidProfile]
  split_ifs
  · exact ⟨10, by norm_num⟩
  · exact ⟨40, by norm_num⟩
  · exact ⟨70, by norm_num⟩
  · exact ⟨90, by norm_num⟩

theorem assessLipidProfile_bounds (c : ℚ) :
    10 ≤ assessLipidProfile c ∧ assessLipidProfile c ≤ 90 := by
  simp only [assessLipidProfile]
  split_ifs <;> norm_num

theorem assessExerciseImpact_QInt (e : ℚ) : QInt (assessExerciseImpact e) := by
  simp only [assessExerciseImpact]
  split_ifs
  · exact ⟨10, by norm_num⟩
  · exact ⟨25, by norm_num⟩
  · exact ⟨50, by norm_num⟩
  · exact ⟨80, by norm_num⟩

theorem assessExerciseImpact_bounds (e : ℚ) :
    10 ≤ assessExerciseImpact e ∧ assessExerciseImpact e ≤ 80 := by
  simp only [assessExerciseImpact]
  split_ifs <;> norm_num

theorem assessAgeMetabolicRisk_QInt (a : ℚ) : QInt (assessAgeMetabolicRisk a) := by
  simp only [assessAgeMetabolicRisk]
  split_ifs
  · exact ⟨10, by norm_num⟩
  · exact ⟨25, by norm_num⟩
  · exact ⟨45, by norm_num⟩
  · exact ⟨65, by norm_num⟩

theorem assessAgeMetabolicRisk_bounds (a : ℚ) :
    10 ≤ assessAgeMetabolicRisk a ∧ assessAgeMetabolicRisk a ≤ 65 := by
  simp only [assessAgeMetabolicRisk]
  split_ifs <;> norm_num

theorem assessCognitiveAgeRisk_QInt (a : ℚ) : QInt (assessCognitiveAgeRisk a) := by
  simp only [assessCognitiveAgeRisk]
  split_ifs
  · exact ⟨5, by norm_num⟩
  · exact ⟨15, by norm_num⟩
  · exact ⟨30, by norm_num⟩
  · exact ⟨50, by norm_num⟩
  · exact ⟨70, by norm_num⟩
  · exact ⟨85, by norm_num⟩

theorem assessCognitiveAgeRisk_bounds (a : ℚ) :
    5 ≤ assessCognitiveAgeRisk a ∧ assessCognitiveAgeRisk a ≤ 85 := by
  simp only [assessCognitiveAgeRisk]
  split_ifs <;> norm_num

theorem assessNeuroprotection_QInt (e : ℚ) : QInt (assessNeuroprotection e) := by
  simp only [assessNeuroprotection]
  split_ifs
  · exact ⟨10, by norm_num⟩
  · exact ⟨25, by norm_num⟩
  · exact ⟨50, by norm_num⟩
  · exact ⟨80, by norm_num⟩

theorem assessNeuroprotection_bounds (e : ℚ) :
    10 ≤ assessNeuroprotection e ∧ assessNeuroprotection e ≤ 80 := by
  simp only [assessNeuroprotection]
  split_ifs <;> norm_num

theorem assessVascularHealth_twice_QInt (s c : ℚ) :
    QInt (2 * assessVascularHealth s c) := by
  simp only [assessVascularHealth]
  split_ifs
  · exact ⟨20, by norm_num⟩
  · exact ⟨45, by norm_num⟩
  · exact ⟨70, by norm_num⟩
  · exact ⟨40, by norm_num⟩
  · exact ⟨65, by norm_num⟩
  · exact ⟨90, by norm_num⟩
  · exact ⟨70, by norm_num⟩
  · exact ⟨95, by norm_num⟩
  · exact ⟨120, by norm_num⟩
  · exact ⟨95, by norm_num⟩
  · exact ⟨120, by norm_num⟩
  · exact ⟨145, by norm_num⟩

theorem assessVascularHealth_bounds (s c : ℚ) :
    10 ≤ assessVascularHealth s c ∧ assessVascularHealth s c ≤ 145/2 := by
  simp only [assessVascularHealth]
  split_ifs <;> norm_num

theorem strokeAgeIncrement_five (a : ℚ) :
    ∃ k : ℤ, strokeAgeIncrement a = 5 * (k : ℚ) := by
  simp only [strokeAgeIncrement]
  split_ifs
  · exact ⟨2, by norm_num⟩
  · exact ⟨5, by norm_num⟩
  · exact ⟨9, by norm_num⟩
  · exact ⟨13, by norm_num⟩
  · exact ⟨16, by norm_num⟩

theorem strokeAgeIncrement_bounds (a : ℚ) :
    10 ≤ strokeAgeIncrement a ∧ strokeAgeIncrement a ≤ 80 := by
  simp only [strokeAgeIncrement]
  split_ifs <;> norm_num

theorem strokeBpIncrement_five (s d : ℚ) :
    ∃ k : ℤ, strokeBpIncrement s d = 5 * (k : ℚ) := by
  simp only [strokeBpIncrement]
  split_ifs
  · exact ⟨8, by norm_num⟩
  · exact ⟨6, by norm_num⟩
  · exact ⟨3, by norm_num⟩
  · exact ⟨0, by norm_num⟩

theorem strokeBpIncrement_bounds (s d : ℚ) :
    0 ≤ strokeBpIncrement s d ∧ strokeBpIncrement s d ≤ 40 := by
  simp only [strokeBpIncrement]
  split_ifs <;> norm_num

theorem strokeCholIncrement_QInt (c : ℚ) : QInt (strokeCholIncrement c) := by
  simp only [strokeCholIncrement]
  split_ifs
  · exact ⟨15, by norm_num⟩
  · exact ⟨10, by norm_num⟩
  · exact ⟨0, by norm_num⟩

theorem strokeCholIncrement_bounds (c : ℚ) :
    0 ≤ strokeCholIncrement c ∧ strokeCholIncrement c ≤ 15 := by
  simp only [strokeCholIncrement]
  split_ifs <;> norm_num

theorem assessStrokeRisk_QInt (age s d : ℚ) (sm : Bool) (c : ℚ) :
    QInt (assessStrokeRisk age s d sm c) := by
  obtain ⟨a, ha⟩ := strokeAgeIncrement_five age
  obtain ⟨b, hb⟩ := strokeBpIncrement_five s d
  obtain ⟨e, he⟩ := strokeCholIncrement_QInt c
  refine QInt.min ?_ ⟨100, by norm_num⟩
  simp only [assessStrokeRisk, ha, hb, he]
  cases sm
  · exact ⟨5 * a + 5 * b + e, by
      simp only [Bool.false_eq_true, if_false]
      push_cast
      ring⟩
  · exact ⟨7 * (a + b) + e, by
      simp only [if_true]
      push_cast
      ring⟩

theorem assessStrokeRisk_bounds (age s d : ℚ) (sm : Bool) (c : ℚ) :
    10 ≤ assessStrokeRisk age s d sm c ∧ assessStrokeRisk age s d sm c ≤ 100 := by
  obtain ⟨ha1, ha2⟩ := strokeAgeIncrement_bounds age
  obtain ⟨hb1, hb2⟩ := strokeBpIncrement_bounds s d
  obtain ⟨he1, he2⟩ := strokeCholIncrement_bounds c
  simp only [assessStrokeRisk]
  constructor
  · refine le_min ?_ (by norm_num)
    cases sm
    · simp only [Bool.false_eq_true, if_false]
      linarith
    · simp only [if_true]
      nlinarith
  · exact min_le_right _ _

/- ------------------------------------------------------------------
Helper lemmas: composite scores
------------------------------------------------------------------ -/

theorem cardioComposite_QInt100 {b c s a e : ℚ} (hb : QInt b) (hc : QInt c)
    (hs : QInt s) (ha : QInt a) (he : QInt e) :
    QInt (100 * (b * 0.35 + c * 0.30 + s * 0.20 + a * 0.10 + e * 0.05)) := by
  obtain ⟨kb, rfl⟩ := hb
  obtain ⟨kc, rfl⟩ := hc
  obtain ⟨ks, rfl⟩ := hs
  obtain ⟨ka, rfl⟩ := ha
  obtain ⟨ke, rfl⟩ := he
  exact ⟨35 * kb + 30 * kc + 20 * ks + 10 * ka + 5 * ke, by push_cast; ring⟩

theorem metabolicComposite_QInt100 {b l e a : ℚ} (hb : QInt b) (hl : QInt l)
    (he : QInt e) (ha : QInt a) :
    QInt (100 * (b * 0.40 + l * 0.30 + e * 0.20 + a * 0.10)) := by
  obtain ⟨kb, rfl⟩ := hb
  obtain ⟨kl, rfl⟩ := hl
  obtain ⟨ke, rfl⟩ := he
  obtain ⟨ka, rfl⟩ := ha
  exact ⟨40 * kb + 30 * kl + 20 * ke + 10 * ka, by push_cast; ring⟩

theorem neuroComposite_QInt40 {c s v n : ℚ} (hc : QInt c) (hs : QInt s)
    (hv : QInt (2 * v)) (hn : QInt n) :
    QInt (40 * (c * 0.25 + s * 0.35 + v * 0.25 + n * 0.15)) := by
  obtain ⟨kc, rfl⟩ := hc
  obtain ⟨ks, rfl⟩ := hs
  obtain ⟨kv, hkv⟩ := hv
  obtain ⟨kn, rfl⟩ := hn
  have hveq : v = (kv : ℚ) / 2 := by linarith
  rw [hveq]
  exact ⟨10 * kc + 14 * ks + 5 * kv + 6 * kn, by push_cast; ring⟩

/-- The QInt-40 grid also preserves the cut when comparing on the other
side: 75 ≤ pyRound2 x ↔ 75 ≤ x, stated via the `<` iff. -/
theorem pyRound2_le_iff {x : ℚ} (X : ℤ) (h : QInt (40 * x)) :
    (X : ℚ) ≤ pyRound2 x ↔ (X : ℚ) ≤ x := by
  rw [← not_lt, ← not_lt]
  exact not_congr (pyRound2_lt_iff X h)

/-- Characterization of the shared 25/50/75 ladder. -/
theorem riskLevelCut_iff (s : ℚ) :
    (riskLevelCut s = "Low" ↔ s < 25) ∧
    (riskLevelCut s = "Moderate" ↔ 25 ≤ s ∧ s < 50) ∧
    (riskLevelCut s = "High" ↔ 50 ≤ s ∧ s < 75) ∧
    (riskLevelCut s = "Critical" ↔ 75 ≤ s) := by
  simp only [riskLevelCut]
  split_ifs with h1 h2 h3
  · exact ⟨iff_of_true rfl h1,
      iff_of_false (by simp) (fun h => not_lt.mpr h.1 h1),
      iff_of_false (by simp) (fun h => absurd h1 (not_lt.mpr (by linarith [h.1]))),
      iff_of_false (by simp) (fun h => absurd h1 (not_lt.mpr (by linarith)))⟩
  · exact ⟨iff_of_false (by simp) h1,
      iff_of_true rfl ⟨not_lt.mp h1, h2⟩,
      iff_of_false (by simp) (fun h => not_lt.mpr h.1 h2),
      iff_of_false (by simp) (fun h => not_lt.mpr (by linarith : (50:ℚ) ≤ s) h2)⟩
  · exact ⟨iff_of_false (by simp) h1,
      iff_of_false (by simp) (fun h => h2 h.2),
      iff_of_true rfl ⟨not_lt.mp h2, h3⟩,
      iff_of_false (by simp) (fun h => not_lt.mpr h h3)⟩
  · exact ⟨iff_of_false (by simp) h1,
      iff_of_false (by simp) (fun h => h2 h.2),
      iff_of_false (by simp) (fun h => h3 h.2),
      iff_of_true rfl (not_lt.mp h3)⟩

/- ------------------------------------------------------------------
C3 and C4
------------------------------------------------------------------ -/

/-- The code's stroke-risk computation equals the spec's formula: age
band plus BP addend, times 1.4 for smokers, plus the cholesterol addend,
capped at 100. -/
theorem strokeRisk_eq_spec (age systolic diastolic : ℚ) (isSmoker : Bool)
    (cholesterol : ℚ) :
    assessStrokeRisk age systolic diastolic isSmoker cholesterol =
      min (specStrokePreCap age systolic diastolic isSmoker cholesterol) 100 := by
  simp only [assessStrokeRisk, specStrokePreCap, strokeAgeIncrement, specStrokeAgeBand,
    strokeBpIncrement, specStrokeBpAddend, strokeCholIncrement, specStrokeCholAddend]
  cases isSmoker
  · simp only [Bool.false_eq_true, if_false, mul_one]
  · simp only [if_true]

/-- C3: for all inputs with the required fields present, the Neurological
evaluator's stroke-risk sub-score is computed in exactly the order age
band, plus BP addend, the running total multiplied by 1.4 if smoker, then
the cholesterol addend (≥280 adds 15, ≥240 adds 10, else 0), capped at
100.  The first conjunct fixes the formula (with multiplication applied
before the cholesterol addend); the second ties it to the `stroke_risk`
entry of the breakdown the evaluator returns. -/
theorem c3_stroke_risk_order :
    (∀ (age systolic diastolic : ℚ) (isSmoker : Bool) (cholesterol : ℚ),
      assessStrokeRisk age systolic diastolic isSmoker cholesterol =
        min (specStrokePreCap age systolic diastolic isSmoker cholesterol) 100) ∧
    ∀ d : HData, missingFields d neuroRequired = [] →
      ∃ r, neuroAssess d = .ok r ∧
        r.breakdown.lookup "stroke_risk" =
          some (min (specStrokePreCap (getNum d "age") (getNum d "systolic")
            (getNum d "diastolic") (getTruthy d "is_smoker")
            (getNum d "cholesterol")) 100) := by
  refine ⟨strokeRisk_eq_spec, fun d hmiss => ?_⟩
  refine ⟨neuroResult (getNum d "age") (getNum d "systolic") (getNum d "diastolic")
    (getNum d "cholesterol") (getTruthy d "is_smoker") (getNum d "exercise_days"), ?_, ?_⟩
  · simp [neuroAssess, hmiss]
  · simp [neuroResult, List.lookup, strokeRisk_eq_spec]

/-- Closed instance of C3 at a concrete input dict (discharging the
required-fields hypothesis of the second conjunct). -/
theorem c3_stroke_risk_order_witness :
    ∃ r, neuroAssess
        [("age", .num 60), ("systolic", .num 165), ("diastolic", .num 95),
         ("cholesterol", .num 250), ("is_smoker", .boolV true),
         ("exercise_days", .num 2)] = .ok r ∧
      r.breakdown.lookup "stroke_risk" =
        some (min (specStrokePreCap 60 165 95 true 250) 100) := by
  have h := c3_stroke_risk_order.2
    [("age", .num 60), ("systolic", .num 165), ("diastolic", .num 95),
     ("cholesterol", .num 250), ("is_smoker", .boolV true),
     ("exercise_days", .num 2)]
    (by simp [missingFields, neuroRequired, findVal])
  simpa [getNum, getTruthy, findVal, toNum, toTruthy] using h

/-- C4: the Cardiovascular blood-pressure sub-score follows the spec's
ladder (first matching bucket, most-favorable first), and the
classification label selects the same bucket as the score, for all
rational (hence all integer) systolic/diastolic values. -/
theorem c4_bp_ladder_and_label (systolic diastolic : ℚ) :
    assessBloodPressure systolic diastolic = specBpScore systolic diastolic ∧
    classifyBloodPressure systolic diastolic =
      specBpLabelOfScore (assessBloodPressure systolic diastolic) := by
  constructor
  · rfl
  · simp only [assessBloodPressure, classifyBloodPressure, specBpLabelOfScore]
    split_ifs <;> first | rfl | (exfalso; norm_num at *)

/- ------------------------------------------------------------------
C5: score range and level cut
------------------------------------------------------------------ -/

theorem pyRound2_cut_iff {x : ℚ} (h : QInt (40 * x)) :
    (pyRound2 x < 25 ↔ x < 25) ∧ (pyRound2 x < 50 ↔ x < 50) ∧
    (pyRound2 x < 75 ↔ x < 75) := by
  refine ⟨?_, ?_, ?_⟩
  · simpa using pyRound2_lt_iff 25 h
  · simpa using pyRound2_lt_iff 50 h
  · simpa using pyRound2_lt_iff 75 h

theorem cardioResult_contract (sys dia chol : ℚ) (sm : Bool) (age ex : ℚ) :
    ScoreLevelContract (cardioResult sys dia chol sm age ex) := by
  obtain ⟨hb1, hb2⟩ := assessBloodPressure_bounds sys dia
  obtain ⟨hc1, hc2⟩ := assessCholesterol_bounds chol
  obtain ⟨hs1, hs2⟩ := smokingRisk_bounds sm
  obtain ⟨ha1, ha2⟩ := assessAgeRisk_bounds age
  obtain ⟨he1, he2⟩ := assessExerciseRisk_bounds ex
  set C := assessBloodPressure sys dia * 0.35 + assessCholesterol chol * 0.30 +
    (if sm then (80 : ℚ) else 10) * 0.20 + assessAgeRisk age * 0.10 +
    assessExerciseRisk ex * 0.05 with hC
  have hscore : (cardioResult sys dia chol sm age ex).riskScore = pyRound2 C := rfl
  have hlevel : (cardioResult sys dia chol sm age ex).riskLevel = riskLevelCut C := rfl
  have hround : pyRound2 C = C :=
    pyRound2_eq_self (cardioComposite_QInt100 (assessBloodPressure_QInt sys dia)
      (assessCholesterol_QInt chol) (smokingRisk_QInt sm)
      (assessAgeRisk_QInt age) (assessExerciseRisk_QInt ex))
  obtain ⟨i1, i2, i3, i4⟩ := riskLevelCut_iff C
  clear_value C
  refine ⟨?_, ?_, ?_, ?_, ?_, ?_⟩ <;> simp only [hscore, hlevel, hround]
  · linarith
  · linarith
  · exact i1
  · exact i2
  · exact i3
  · exact i4

theorem metabolicResult_contract (w h age ex chol : ℚ) :
    ScoreLevelContract (metabolicResult w h age ex chol) := by
  obtain ⟨hb1, hb2⟩ := assessBmiRisk_bounds (calculateBmi w h)
  obtain ⟨hl1, hl2⟩ := assessLipidProfile_bounds chol
  obtain ⟨he1, he2⟩ := assessExerciseImpact_bounds ex
  obtain ⟨ha1, ha2⟩ := assessAgeMetabolicRisk_bounds age
  set C := assessBmiRisk (calculateBmi w h) * 0.40 + assessLipidProfile chol * 0.30 +
    assessExerciseImpact ex * 0.20 + assessAgeMetabolicRisk age * 0.10 with hC
  have hscore : (metabolicResult w h age ex chol).riskScore = pyRound2 C := rfl
  have hlevel : (metabolicResult w h age ex chol).riskLevel = riskLevelCut C := rfl
  have hround : pyRound2 C = C :=
    pyRound2_eq_self (metabolicComposite_QInt100 (assessBmiRisk_QInt (calculateBmi w h))
      (assessLipidProfile_QInt chol) (assessExerciseImpact_QInt ex)
      (assessAgeMetabolicRisk_QInt age))
  obtain ⟨i1, i2, i3, i4⟩ := riskLevelCut_iff C
  clear_value C
  refine ⟨?_, ?_, ?_, ?_, ?_, ?_⟩ <;> simp only [hscore, hlevel, hround]
  · linarith
  · linarith
  · exact i1
  · exact i2
  · exact i3
  · exact i4

theorem neuroResult_contract (age sys dia chol : ℚ) (sm : Bool) (ex : ℚ) :
    ScoreLevelContract (neuroResult age sys dia chol sm ex) := by
  obtain ⟨hc1, hc2⟩ := assessCognitiveAgeRisk_bounds age
  obtain ⟨hs1, hs2⟩ := assessStrokeRisk_bounds age sys dia sm chol
  obtain ⟨hv1, hv2⟩ := assessVascularHealth_bounds sys chol
  obtain ⟨hn1, hn2⟩ := assessNeuroprotection_bounds ex
  set C := assessCognitiveAgeRisk age * 0.25 + assessStrokeRisk age sys dia sm chol * 0.35 +
    assessVascularHealth sys chol * 0.25 + assessNeuroprotection ex * 0.15 with hC
  have hscore : (neuroResult age sys dia chol sm ex).riskScore = pyRound2 C := rfl
  have hlevel : (neuroResult age sys dia chol sm ex).riskLevel = riskLevelCut C := rfl
  have hQ : QInt (40 * C) :=
    neuroComposite_QInt40 (assessCognitiveAgeRisk_QInt age)
      (assessStrokeRisk_QInt age sys dia sm chol)
      (assessVascularHealth_twice_QInt sys chol) (assessNeuroprotection_QInt ex)
  obtain ⟨c25, c50, c75⟩ := pyRound2_cut_iff hQ
  have le25 : 25 ≤ pyRound2 C ↔ 25 ≤ C := by
    rw [← not_lt, ← not_lt]; exact not_congr c25
  have le50 : 50 ≤ pyRound2 C ↔ 50 ≤ C := by
    rw [← not_lt, ← not_lt]; exact not_congr c50
  have le75 : 75 ≤ pyRound2 C ↔ 75 ≤ C := by
    rw [← not_lt, ← not_lt]; exact not_congr c75
  obtain ⟨i1, i2, i3, i4⟩ := riskLevelCut_iff C
  have hlow := le_pyRound2 C
  have hhigh := pyRound2_le C
  clear_value C
  refine ⟨?_, ?_, ?_, ?_, ?_, ?_⟩ <;> simp only [hscore, hlevel]
  · linarith
  · linarith
  · exact i1.trans c25.symm
  · exact i2.trans (and_congr le25 c50).symm
  · exact i3.trans (and_congr le50 c75).symm
  · exact i4.trans le75.symm

theorem cardioAssess_ok (d : HData) (hmiss : missingFields d cardioRequired = []) :
    ∃ r, cardioAssess d = .ok r ∧ ScoreLevelContract r :=
  ⟨cardioResult (getNum d "systolic") (getNum d "diastolic") (getNum d "cholesterol")
     (getTruthy d "is_smoker") (getNum d "age") (getNum d "exercise_days"),
   by simp [cardioAssess, hmiss], cardioResult_contract _ _ _ _ _ _⟩

theorem neuroAssess_ok (d : HData) (hmiss : missingFields d neuroRequired = []) :
    ∃ r, neuroAssess d = .ok r ∧ ScoreLevelContract r :=
  ⟨neuroResult (getNum d "age") (getNum d "systolic") (getNum d "diastolic")
     (getNum d "cholesterol") (getTruthy d "is_smoker") (getNum d "exercise_days"),
   by simp [neuroAssess, hmiss], neuroResult_contract _ _ _ _ _ _⟩

theorem metabolicAssess_ok (d : HData) (hmiss : missingFields d metabolicRequired = [])
    (hh : getNum d "height_cm" ≠ 0) :
    ∃ r, metabolicAssess d = .ok r ∧ ScoreLevelContract r :=
  ⟨metabolicResult (getNum d "weight_kg") (getNum d "height_cm") (getNum d "age")
     (getNum d "exercise_days") (getNum d "cholesterol"),
   by simp [metabolicAssess, hmiss, hh], metabolicResult_contract _ _ _ _ _⟩

/-- C5 counterexample: a metrics dict containing every Metabolic required
field, on which the Metabolic evaluator does not return a score at all:
`height_cm = 0` makes `weight_kg / (height_cm / 100) ** 2` raise
`ZeroDivisionError: float division by zero`. -/
theorem c5_counterexample :
    missingFields
        [("weight_kg", .num 70), ("height_cm", .num 0), ("age", .num 40),
         ("exercise_days", .num 3), ("cholesterol", .num 190)] metabolicRequired = [] ∧
    metabolicAssess
        [("weight_kg", .num 70), ("height_cm", .num 0), ("age", .num 40),
         ("exercise_days", .num 3), ("cholesterol", .num 190)] =
      .error "float division by zero" := by
  constructor
  · simp [missingFields, metabolicRequired, findVal]
  · simp [metabolicAssess, missingFields, metabolicRequired, findVal, getNum, toNum]

/-- C5 (amended): for every input containing all of an evaluator's
required fields, the Cardiovascular and Neurological evaluators return a
risk score in [0, 100] whose risk level matches the 25/50/75 cut exactly
(upper band inclusive); the Metabolic evaluator does the same provided
its height field is nonzero (at `height_cm = 0` it raises a division
error instead of returning). -/
theorem c5_score_range_and_level (d : HData) :
    (missingFields d cardioRequired = [] →
      ∃ r, cardioAssess d = .ok r ∧ ScoreLevelContract r) ∧
    (missingFields d neuroRequired = [] →
      ∃ r, neuroAssess d = .ok r ∧ ScoreLevelContract r) ∧
    (missingFields d metabolicRequired = [] → getNum d "height_cm" ≠ 0 →
      ∃ r, metabolicAssess d = .ok r ∧ ScoreLevelContract r) :=
  ⟨cardioAssess_ok d, neuroAssess_ok d, metabolicAssess_ok d⟩

/-- Closed instance of C5 at a concrete input, discharging every
hypothesis. -/
theorem c5_score_range_and_level_witness :
    (∃ r, cardioAssess sampleMetrics = .ok r ∧ ScoreLevelContract r) ∧
    (∃ r, neuroAssess sampleMetrics = .ok r ∧ ScoreLevelContract r) ∧
    (∃ r, metabolicAssess sampleMetrics = .ok r ∧ ScoreLevelContract r) := by
  have h := c5_score_range_and_level sampleMetrics
  refine ⟨h.1 ?_, h.2.1 ?_, h.2.2 ?_ ?_⟩
  · simp [missingFields, cardioRequired, sampleMetrics, findVal]
  · simp [missingFields, neuroRequired, sampleMetrics, findVal]
  · simp [missingFields, metabolicRequired, sampleMetrics, findVal]
  · simp [getNum, sampleMetrics, findVal, toNum]

/- ------------------------------------------------------------------
C7: validation exactness
------------------------------------------------------------------ -/

theorem joinComma_mem_split (f : String) :
    ∀ l : List String, f ∈ l → ∃ p q, joinComma l = p ++ f ++ q := by
  intro l
  induction l with
  | nil => intro h; exact absurd h (List.not_mem_nil f)
  | cons x xs ih =>
    intro hf
    cases xs with
    | nil =>
      have hx : f = x := by simpa using hf
      subst hx
      exact ⟨"", "", by simp [joinComma, String.empty_append, String.append_empty]⟩
    | cons y ys =>
      rcases List.mem_cons.mp hf with rfl | hf'
      · exact ⟨"", ", " ++ joinComma (y :: ys), by
          simp [joinComma, String.empty_append, String.append_assoc]⟩
      · obtain ⟨p, q, hpq⟩ := ih hf'
        exact ⟨x ++ ", " ++ p, q, by
          simp [joinComma, hpq, String.append_assoc]⟩

/-- C7: each evaluator's assess_risk raises its validation error exactly
when at least one required field is absent from the dict (absent as a
key, not falsy), the error message is built from the full list of absent
fields, and that message contains every missing field name.  (The
Metabolic evaluator can still raise its separate division error when
validation passes.) -/
theorem c7_validation_exactness (d : HData) :
    ((missingFields d cardioRequired ≠ [] →
        cardioAssess d =
          .error (validationMsg "CardioAgent" (missingFields d cardioRequired))) ∧
      (missingFields d cardioRequired = [] → ∃ r, cardioAssess d = .ok r)) ∧
    ((missingFields d neuroRequired ≠ [] →
        neuroAssess d =
          .error (validationMsg "NeuroAgent" (missingFields d neuroRequired))) ∧
      (missingFields d neuroRequired = [] → ∃ r, neuroAssess d = .ok r)) ∧
    ((missingFields d metabolicRequired ≠ [] →
        metabolicAssess d =
          .error (validationMsg "MetabolicAgent" (missingFields d metabolicRequired))) ∧
      (missingFields d metabolicRequired = [] →
        (∃ r, metabolicAssess d = .ok r) ∨
          metabolicAssess d = .error "float division by zero")) ∧
    (∀ (req : List String) (name f : String), f ∈ missingFields d req →
      ∃ p q, validationMsg name (missingFields d req) = p ++ f ++ q) ∧
    (∀ (req : List String) (f : String),
      f ∈ missingFields d req ↔ f ∈ req ∧ findVal d f = none) := by
  refine ⟨⟨?_, ?_⟩, ⟨?_, ?_⟩, ⟨?_, ?_⟩, ?_, ?_⟩
  · intro hne
    simp only [cardioAssess]
    rw [if_neg hne]
  · intro hmiss
    obtain ⟨r, hr, _⟩ := cardioAssess_ok d hmiss
    exact ⟨r, hr⟩
  · intro hne
    simp only [neuroAssess]
    rw [if_neg hne]
  · intro hmiss
    obtain ⟨r, hr, _⟩ := neuroAssess_ok d hmiss
    exact ⟨r, hr⟩
  · intro hne
    simp only [metabolicAssess]
    rw [if_neg hne]
  · intro hmiss
    by_cases hh : getNum d "height_cm" = 0
    · right
      simp [metabolicAssess, hmiss, hh]
    · left
      obtain ⟨r, hr, _⟩ := metabolicAssess_ok d hmiss hh
      exact ⟨r, hr⟩
  · intro req name f hf
    obtain ⟨p, q, hpq⟩ := joinComma_mem_split f _ hf
    refine ⟨name ++ ": Missing required fields: " ++ p, q, ?_⟩
    simp [validationMsg, hpq, String.append_assoc]
  · intro req f
    simp [missingFields, List.mem_filter, Option.isNone_iff_eq_none]

/-- Closed instance of C7: a dict with one key produces the validation
error naming every other required field; a dict with all fields present
(some of them falsy, like `is_smoker = False`) validates. -/
theorem c7_validation_exactness_witness :
    cardioAssess [("systolic", HVal.num 115)] =
      .error "CardioAgent: Missing required fields: diastolic, cholesterol, is_smoker, age, exercise_days" ∧
    (∃ r, cardioAssess sampleMetrics = .ok r) := by
  constructor
  · have h := (c7_validation_exactness [("systolic", HVal.num 115)]).1.1
      (by simp [missingFields, cardioRequired, findVal])
    simpa [missingFields, cardioRequired, findVal, validationMsg, joinComma] using h
  · exact (c7_validation_exactness sampleMetrics).1.2
      (by simp [missingFields, cardioRequired, sampleMetrics, findVal])

/- ------------------------------------------------------------------
C10: results depend only on the required fields
------------------------------------------------------------------ -/

theorem missingFields_congr {req : List String} {d1 d2 : HData}
    (h : AgreesOn req d1 d2) : missingFields d1 req = missingFields d2 req :=
  List.filter_congr (fun f hf => by rw [h f hf])

theorem getNum_congr {req : List String} {d1 d2 : HData} (h : AgreesOn req d1 d2)
    {k : String} (hk : k ∈ req) : getNum d1 k = getNum d2 k := by
  simp only [getNum, h k hk]

theorem getTruthy_congr {req : List String} {d1 d2 : HData} (h : AgreesOn req d1 d2)
    {k : String} (hk : k ∈ req) : getTruthy d1 k = getTruthy d2 k := by
  simp only [getTruthy, h k hk]

/-- C10: each evaluator's full assess_risk result depends only on that
evaluator's required fields — two dicts agreeing on them (whatever other
keys each contains) produce identical results. -/
theorem c10_field_dependence (d1 d2 : HData) :
    (AgreesOn cardioRequired d1 d2 → cardioAssess d1 = cardioAssess d2) ∧
    (AgreesOn metabolicRequired d1 d2 → metabolicAssess d1 = metabolicAssess d2) ∧
    (AgreesOn neuroRequired d1 d2 → neuroAssess d1 = neuroAssess d2) := by
  refine ⟨fun h => ?_, fun h => ?_, fun h => ?_⟩
  · simp only [cardioAssess, missingFields_congr h,
      getNum_congr h (show "systolic" ∈ cardioRequired by simp [cardioRequired]),
      getNum_congr h (show "diastolic" ∈ cardioRequired by simp [cardioRequired]),
      getNum_congr h (show "cholesterol" ∈ cardioRequired by simp [cardioRequired]),
      getTruthy_congr h (show "is_smoker" ∈ cardioRequired by simp [cardioRequired]),
      getNum_congr h (show "age" ∈ cardioRequired by simp [cardioRequired]),
      getNum_congr h (show "exercise_days" ∈ cardioRequired by simp [cardioRequired])]
  · simp only [metabolicAssess, missingFields_congr h,
      getNum_congr h (show "weight_kg" ∈ metabolicRequired by simp [metabolicRequired]),
      getNum_congr h (show "height_cm" ∈ metabolicRequired by simp [metabolicRequired]),
      getNum_congr h (show "age" ∈ metabolicRequired by simp [metabolicRequired]),
      getNum_congr h (show "exercise_days" ∈ metabolicRequired by simp [metabolicRequired]),
      getNum_congr h (show "cholesterol" ∈ metabolicRequired by simp [metabolicRequired])]
  · simp only [neuroAssess, missingFields_congr h,
      getNum_congr h (show "age" ∈ neuroRequired by simp [neuroRequired]),
      getNum_congr h (show "systolic" ∈ neuroRequired by simp [neuroRequired]),
      getNum_congr h (show "diastolic" ∈ neuroRequired by simp [neuroRequired]),
      getNum_congr h (show "cholesterol" ∈ neuroRequired by simp [neuroRequired]),
      getTruthy_congr h (show "is_smoker" ∈ neuroRequired by simp [neuroRequired]),
      getNum_congr h (show "exercise_days" ∈ neuroRequired by simp [neuroRequired])]

/-- Closed instance of C10: adding unrelated keys (here a wearable's
`heart_rate` and a different `weight_kg`, which Cardio does not read)
does not change the Cardiovascular result. -/
theorem c10_field_dependence_witness :
    cardioAssess sampleMetrics =
      cardioAssess (("heart_rate", HVal.num 72) :: sampleMetrics ++
        [("extra_flag", HVal.boolV true)]) := by
  apply (c10_field_dependence sampleMetrics _).1
  intro k hk
  fin_cases hk <;> simp [sampleMetrics, findVal]

/- ------------------------------------------------------------------
C6: total failure
------------------------------------------------------------------ -/

/-- C6: when every evaluator fails on the input, the aggregator still
returns a well-formed assessment with overall index 0 and level
"Unknown" (it does not raise). -/
theorem c6_total_failure (d : HData) (t : Timing) (st : AggState)
    (hc : ∃ e, cardioAssess d = .error e)
    (hm : ∃ e, metabolicAssess d = .error e)
    (hn : ∃ e, neuroAssess d = .error e) :
    (assessStep d t st).1.overallHealthIndex = 0 ∧
    (assessStep d t st).1.overallRiskLevel = "Unknown" ∧
    ((assessStep d t st).1.agentAssessments.map Prod.fst = agentNames) := by
  obtain ⟨e1, h1⟩ := hc
  obtain ⟨e2, h2⟩ := hm
  obtain ⟨e3, h3⟩ := hn
  refine ⟨?_, ?_, ?_⟩ <;>
    simp [assessStep, cardioTimed, metabolicTimed, neuroTimed, withTiming,
      h1, h2, h3, toOutcome, calculateOverallIndex, agentNames]

/-- Closed instance of C6: on the empty metrics dict every evaluator
fails validation and the aggregate is 0 / "Unknown". -/
theorem c6_total_failure_witness :
    (assessStep [] sampleTiming freshAggState).1.overallHealthIndex = 0 ∧
    (assessStep [] sampleTiming freshAggState).1.overallRiskLevel = "Unknown" ∧
    ((assessStep [] sampleTiming freshAggState).1.agentAssessments.map Prod.fst =
      agentNames) := by
  apply c6_total_failure
  · exact ⟨validationMsg "CardioAgent" cardioRequired,
      by simp [cardioAssess, missingFields, cardioRequired, findVal]⟩
  · exact ⟨validationMsg "MetabolicAgent" metabolicRequired,
      by simp [metabolicAssess, missingFields, metabolicRequired, findVal]⟩
  · exact ⟨validationMsg "NeuroAgent" neuroRequired,
      by simp [neuroAssess, missingFields, neuroRequired, findVal]⟩

/- ------------------------------------------------------------------
C1: fault isolation and weight renormalization
------------------------------------------------------------------ -/

/-- C1: whenever at least one evaluator fails and at least one succeeds,
assess_comprehensive_risk still returns a complete assessment (entries
for all three evaluators), every failing evaluator appears as an
explicit error-marked entry carrying its error message, and the overall
health index is the rounded weighted average of the successful
evaluators' scores with the weights renormalized over the successful
evaluators only. -/
theorem c1_fault_isolation_weighted_index (d : HData) (t : Timing) (st : AggState)
    (hfail : (∃ e, cardioAssess d = .error e) ∨ (∃ e, metabolicAssess d = .error e) ∨
      (∃ e, neuroAssess d = .error e))
    (hok : (∃ r, cardioAssess d = .ok r) ∨ (∃ r, metabolicAssess d = .ok r) ∨
      (∃ r, neuroAssess d = .ok r)) :
    ((assessStep d t st).1.agentAssessments.map Prod.fst = agentNames) ∧
    (∀ e, cardioAssess d = .error e →
      (assessStep d t st).1.agentAssessments.lookup "cardio" = some (.err e)) ∧
    (∀ e, metabolicAssess d = .error e →
      (assessStep d t st).1.agentAssessments.lookup "metabolic" = some (.err e)) ∧
    (∀ e, neuroAssess d = .error e →
      (assessStep d t st).1.agentAssessments.lookup "neuro" = some (.err e)) ∧
    (assessStep d t st).1.overallHealthIndex =
      pyRound2
        (((okWeightPairs (assessStep d t st).1.agentAssessments).map
            (fun q => q.1 * q.2)).sum /
          ((okWeightPairs (assessStep d t st).1.agentAssessments).map Prod.fst).sum) := by
  cases hcc : cardioAssess d with
  | error e1 =>
    cases hmm : metabolicAssess d with
    | error e2 =>
      cases hnn : neuroAssess d with
      | error e3 =>
        exfalso
        rcases hok with ⟨r, hr⟩ | ⟨r, hr⟩ | ⟨r, hr⟩ <;> simp_all
      | ok r3 =>
        refine ⟨?_, ?_, ?_, ?_, ?_⟩ <;>
          simp [assessStep, cardioTimed, metabolicTimed, neuroTimed, withTiming,
            hcc, hmm, hnn, toOutcome, calculateOverallIndex, okWeightPairs,
            agentWeight, agentNames, List.lookup] <;>
          norm_num
    | ok r2 =>
      cases hnn : neuroAssess d with
      | error e3 =>
        refine ⟨?_, ?_, ?_, ?_, ?_⟩ <;>
          simp [assessStep, cardioTimed, metabolicTimed, neuroTimed, withTiming,
            hcc, hmm, hnn, toOutcome, calculateOverallIndex, okWeightPairs,
            agentWeight, agentNames, List.lookup] <;>
          norm_num
      | ok r3 =>
        refine ⟨?_, ?_, ?_, ?_, ?_⟩ <;>
          simp [assessStep, cardioTimed, metabolicTimed, neuroTimed, withTiming,
            hcc, hmm, hnn, toOutcome, calculateOverallIndex, okWeightPairs,
            agentWeight, agentNames, List.lookup] <;>
          norm_num <;>
          (congr 1; ring)
  | ok r1 =>
    cases hmm : metabolicAssess d with
    | error e2 =>
      cases hnn : neuroAssess d with
      | error e3 =>
        refine ⟨?_, ?_, ?_, ?_, ?_⟩ <;>
          simp [assessStep, cardioTimed, metabolicTimed, neuroTimed, withTiming,
            hcc, hmm, hnn, toOutcome, calculateOverallIndex, okWeightPairs,
            agentWeight, agentNames, List.lookup] <;>
          norm_num
      | ok r3 =>
        refine ⟨?_, ?_, ?_, ?_, ?_⟩ <;>
          simp [assessStep, cardioTimed, metabolicTimed, neuroTimed, withTiming,
            hcc, hmm, hnn, toOutcome, calculateOverallIndex, okWeightPairs,
            agentWeight, agentNames, List.lookup] <;>
          norm_num <;>
          (congr 1; ring)
    | ok r2 =>
      cases hnn : neuroAssess d with
      | error e3 =>
        refine ⟨?_, ?_, ?_, ?_, ?_⟩ <;>
          simp [assessStep, cardioTimed, metabolicTimed, neuroTimed, withTiming,
            hcc, hmm, hnn, toOutcome, calculateOverallIndex, okWeightPairs,
            agentWeight, agentNames, List.lookup] <;>
          norm_num <;>
          (congr 1; ring)
      | ok r3 =>
        exfalso
        rcases hfail with ⟨e, he⟩ | ⟨e, he⟩ | ⟨e, he⟩ <;> simp_all

/- ------------------------------------------------------------------
C2: integrated recommendations
------------------------------------------------------------------ -/

theorem dedupInto_structure (l : List String) :
    ∀ acc, ∃ t, dedupInto acc l = acc ++ t ∧ ∀ x ∈ t, x ∈ l := by
  induction l with
  | nil => exact fun acc => ⟨[], by simp [dedupInto], by simp⟩
  | cons r rs ih =>
    intro acc
    have hstep : dedupInto acc (r :: rs) = dedupInto (appendUnique acc r) rs := rfl
    obtain ⟨t, ht, hsub⟩ := ih (appendUnique acc r)
    by_cases hr : r ∈ acc
    · refine ⟨t, ?_, fun x hx => List.mem_cons_of_mem _ (hsub x hx)⟩
      rw [hstep, ht, appendUnique, if_pos hr]
    · refine ⟨r :: t, ?_, fun x hx => ?_⟩
      · rw [hstep, ht, appendUnique, if_neg hr]
        simp
      · rcases List.mem_cons.mp hx with rfl | hx'
        · exact List.mem_cons_self _ _
        · exact List.mem_cons_of_mem _ (hsub x hx')

/-- Structure of _integrate_recommendations' output: one synthesized
summary line first (never urgent-marked), then the deduplicated urgent
lines, then the deduplicated regular lines, truncated to 15; the urgent
segment is nonempty whenever any collected recommendation is
urgent-marked. -/
theorem integrate_structure (results : List (String × AgentOutcome)) :
    (integrateRecommendations results).length ≤ 15 ∧
    ∃ first us rs, integrateRecommendations results = first :: (us ++ rs) ∧
      isUrgent first = false ∧ (∀ u ∈ us, isUrgent u = true) ∧
      (∀ x ∈ rs, isUrgent x = false) ∧
      ((collectRecs results).filter (fun r => isUrgent r) ≠ [] → us ≠ []) := by
  constructor
  · exact List.length_take_le _ _
  · have hdef : integrateRecommendations results =
        ((if (collectRecs results).filter (fun r => isUrgent r) = [] then
            "Continue maintaining healthy lifestyle habits across all health domains"
          else
            "Multiple health concerns identified - comprehensive medical evaluation recommended") ::
          dedupInto (dedupInto [] ((collectRecs results).filter (fun r => isUrgent r)))
            ((collectRecs results).filter (fun r => !(isUrgent r)))).take 15 := rfl
    cases hcs : (collectRecs results).filter (fun r => isUrgent r) with
    | nil =>
      obtain ⟨t2, ht2, hsub2⟩ :=
        dedupInto_structure ((collectRecs results).filter (fun r => !(isUrgent r))) []
      refine ⟨"Continue maintaining healthy lifestyle habits across all health domains",
        [], t2.take 14, ?_, by decide, by simp, ?_, ?_⟩
      · rw [hdef, hcs, if_pos rfl, List.take_succ_cons]
        have h0 : dedupInto [] ([] : List String) = [] := rfl
        rw [h0, ht2]
        simp
      · intro x hx
        have hx' := hsub2 x (List.take_subset 14 t2 hx)
        have := (List.mem_filter.mp hx').2
        simpa using this
      · intro h
        exact absurd rfl h
    | cons c cs' =>
      have h0 : dedupInto [] (c :: cs') = dedupInto [c] cs' := by
        simp [dedupInto, appendUnique]
      obtain ⟨t1, ht1, hsub1⟩ := dedupInto_structure cs' [c]
      obtain ⟨t2, ht2, hsub2⟩ :=
        dedupInto_structure ((collectRecs results).filter (fun r => !(isUrgent r)))
          (c :: t1)
      have hc_mem : ∀ u ∈ c :: t1, u ∈ (collectRecs results).filter (fun r => isUrgent r) := by
        intro u hu
        rcases List.mem_cons.mp hu with rfl | hu'
        · rw [hcs]; exact List.mem_cons_self _ _
        · rw [hcs]; exact List.mem_cons_of_mem _ (hsub1 u hu')
      refine ⟨"Multiple health concerns identified - comprehensive medical evaluation recommended",
        c :: t1.take 13, t2.take (13 - t1.length), ?_, by decide, ?_, ?_, fun _ => by simp⟩
      · rw [hdef, hcs, if_neg (by simp), List.take_succ_cons, h0, ht1]
        simp only [List.singleton_append]
        rw [ht2]
        simp only [List.cons_append, List.take_succ_cons, List.cons.injEq, true_and]
        rw [List.take_append_eq_append_take]
      · intro u hu
        rcases List.mem_cons.mp hu with rfl | hu'
        · have := hc_mem u (List.mem_cons_self _ _)
          exact (List.mem_filter.mp this).2
        · have hmem := hc_mem u (List.mem_cons_of_mem _ (List.take_subset 13 t1 hu'))
          exact (List.mem_filter.mp hmem).2
      · intro x hx
        have hx' := hsub2 x (List.take_subset _ t2 hx)
        have := (List.mem_filter.mp hx').2
        simpa using this

/-- If a timed assessment succeeded, its attached recommendation list was
generated from the returned risk score. -/
theorem withTiming_ok_shape {name : String} {assess : HData → Except String AgentResult}
    {recs : ℚ → List String} {d : HData} {s : ℚ} {tr : TimedResult}
    (h : withTiming name assess recs d s = .ok tr) :
    tr.recommendations = recs tr.base.riskScore := by
  cases hca : assess d with
  | error e => simp [withTiming, hca] at h
  | ok r =>
    simp only [withTiming, hca] at h
    injection h with h'
    subst h'
    rfl

theorem cardioRecommendations_critical {s : ℚ} (h : 75 ≤ s) :
    ∃ x ∈ cardioRecommendations s, isUrgent x = true := by
  refine ⟨"⚠️ URGENT: Seek immediate medical attention", ?_, by decide⟩
  simp only [cardioRecommendations]
  rw [if_neg (by linarith), if_neg (by linarith), if_neg (by linarith)]
  simp

theorem metabolicRecommendations_critical {s : ℚ} (h : 75 ≤ s) :
    ∃ x ∈ metabolicRecommendations s, isUrgent x = true := by
  refine ⟨"⚠️ URGENT: Immediate medical evaluation required", ?_, by decide⟩
  simp only [metabolicRecommendations]
  rw [if_neg (by linarith), if_neg (by linarith), if_neg (by linarith)]
  simp

theorem neuroRecommendations_critical {s : ℚ} (h : 75 ≤ s) :
    ∃ x ∈ neuroRecommendations s, isUrgent x = true := by
  refine ⟨"⚠️ URGENT: Immediate neurological evaluation required", ?_, by decide⟩
  simp only [neuroRecommendations]
  rw [if_neg (by linarith), if_neg (by linarith), if_neg (by linarith)]
  simp

theorem mem_collectRecs {results : List (String × AgentOutcome)}
    {p : String × AgentOutcome} (hp : p ∈ results) {tr : TimedResult}
    (htr : p.2 = AgentOutcome.ok tr) {x : String} (hx : x ∈ tr.recommendations) :
    x ∈ collectRecs results := by
  induction results with
  | nil => cases hp
  | cons q qs ih =>
    rcases List.mem_cons.mp hp with rfl | hp'
    · simp only [collectRecs, List.foldr_cons, htr]
      exact List.mem_append_left _ hx
    · have hx' := ih hp'
      simp only [collectRecs, List.foldr_cons]
      cases q.2 with
      | ok r => exact List.mem_append_right _ (by simpa [collectRecs] using hx')
      | err e => simpa [collectRecs] using hx'

/-- A member recommendation that is urgent-marked makes the collected
urgent filter nonempty. -/
theorem urgent_filter_nonempty {results : List (String × AgentOutcome)}
    {p : String × AgentOutcome} (hp : p ∈ results) {tr : TimedResult}
    (htr : p.2 = AgentOutcome.ok tr) {x : String} (hx : x ∈ tr.recommendations)
    (hxu : isUrgent x = true) :
    (collectRecs results).filter (fun r => isUrgent r) ≠ [] := by
  have hxc := mem_collectRecs hp htr hx
  have hmem : x ∈ (collectRecs results).filter (fun r => isUrgent r) :=
    List.mem_filter.mpr ⟨hxc, hxu⟩
  intro hnil
  rw [hnil] at hmem
  cases hmem

/-- If some returned evaluator assessment fired the Critical tier, the
collected urgent-marked recommendations are nonempty. -/
theorem critical_fired_urgent_nonempty (d : HData) (t : Timing)
    (hfired : ∃ p ∈ [("cardio", toOutcome (cardioTimed d t.cardioSec)),
        ("metabolic", toOutcome (metabolicTimed d t.metabolicSec)),
        ("neuro", toOutcome (neuroTimed d t.neuroSec))],
      ∃ tr, p.2 = AgentOutcome.ok tr ∧ 75 ≤ tr.base.riskScore) :
    (collectRecs [("cardio", toOutcome (cardioTimed d t.cardioSec)),
      ("metabolic", toOutcome (metabolicTimed d t.metabolicSec)),
      ("neuro", toOutcome (neuroTimed d t.neuroSec))]).filter
      (fun r => isUrgent r) ≠ [] := by
  obtain ⟨p, hp, tr, htr, hscore⟩ := hfired
  rcases List.mem_cons.mp hp with rfl | hp'
  · have hrec : tr.recommendations = cardioRecommendations tr.base.riskScore := by
      have h2 : toOutcome (cardioTimed d t.cardioSec) = .ok tr := htr
      cases hwt : cardioTimed d t.cardioSec with
      | error e => rw [hwt] at h2; simp [toOutcome] at h2
      | ok tr' =>
        rw [hwt] at h2
        simp only [toOutcome] at h2
        have h2' := AgentOutcome.ok.inj h2
        have hok : cardioTimed d t.cardioSec = .ok tr := by rw [hwt, h2']
        exact withTiming_ok_shape
          (show withTiming "CardioAgent" cardioAssess cardioRecommendations d t.cardioSec = .ok tr from hok)
    obtain ⟨x, hx, hxu⟩ := cardioRecommendations_critical hscore
    exact urgent_filter_nonempty hp htr (by rw [hrec]; exact hx) hxu
  rcases List.mem_cons.mp hp' with rfl | hp''
  · have hrec : tr.recommendations = metabolicRecommendations tr.base.riskScore := by
      have h2 : toOutcome (metabolicTimed d t.metabolicSec) = .ok tr := htr
      cases hwt : metabolicTimed d t.metabolicSec with
      | error e => rw [hwt] at h2; simp [toOutcome] at h2
      | ok tr' =>
        rw [hwt] at h2
        simp only [toOutcome] at h2
        have h2' := AgentOutcome.ok.inj h2
        have hok : metabolicTimed d t.metabolicSec = .ok tr := by rw [hwt, h2']
        exact withTiming_ok_shape
          (show withTiming "MetabolicAgent" metabolicAssess metabolicRecommendations d t.metabolicSec = .ok tr from hok)
    obtain ⟨x, hx, hxu⟩ := metabolicRecommendations_critical hscore
    exact urgent_filter_nonempty hp htr (by rw [hrec]; exact hx) hxu
  rcases List.mem_cons.mp hp'' with rfl | hp3
  · have hrec : tr.recommendations = neuroRecommendations tr.base.riskScore := by
      have h2 : toOutcome (neuroTimed d t.neuroSec) = .ok tr := htr
      cases hwt : neuroTimed d t.neuroSec with
      | error e => rw [hwt] at h2; simp [toOutcome] at h2
      | ok tr' =>
        rw [hwt] at h2
        simp only [toOutcome] at h2
        have h2' := AgentOutcome.ok.inj h2
        have hok : neuroTimed d t.neuroSec = .ok tr := by rw [hwt, h2']
        exact withTiming_ok_shape
          (show withTiming "NeuroAgent" neuroAssess neuroRecommendations d t.neuroSec = .ok tr from hok)
    obtain ⟨x, hx, hxu⟩ := neuroRecommendations_critical hscore
    exact urgent_filter_nonempty hp htr (by rw [hrec]; exact hx) hxu
  · cases hp3

theorem criticalMetrics_cardio :
    cardioAssess criticalMetrics = .ok (cardioResult 200 120 300 true 80 0) := by
  simp [cardioAssess, missingFields, cardioRequired, findVal, getNum, getTruthy,
    toNum, toTruthy, criticalMetrics]

theorem criticalMetrics_cardio_score :
    (cardioResult 200 120 300 true 80 0).riskScore = 92 := by
  norm_num [cardioResult, assessBloodPressure, assessCholesterol, assessAgeRisk,
    assessExerciseRisk, pyRound2, roundHalfEven]

/-- On `criticalMetrics` the Cardiovascular evaluator's Critical tier
fires (score 92). -/
theorem criticalMetrics_fired :
    ∃ p ∈ (assessStep criticalMetrics sampleTiming freshAggState).1.agentAssessments,
      ∃ tr, p.2 = AgentOutcome.ok tr ∧ 75 ≤ tr.base.riskScore := by
  refine ⟨("cardio", toOutcome (cardioTimed criticalMetrics sampleTiming.cardioSec)),
    List.mem_cons_self _ _, ?_⟩
  refine ⟨{ base := cardioResult 200 120 300 true 80 0
            agentName := "CardioAgent"
            processingTimeMs := pyRound2 (sampleTiming.cardioSec * 1000)
            recommendations :=
              cardioRecommendations (cardioResult 200 120 300 true 80 0).riskScore },
    ?_, ?_⟩
  · show toOutcome (cardioTimed criticalMetrics sampleTiming.cardioSec) = _
    simp [cardioTimed, withTiming, criticalMetrics_cardio, toOutcome]
  · show (75 : ℚ) ≤ (cardioResult 200 120 300 true 80 0).riskScore
    rw [criticalMetrics_cardio_score]
    norm_num

/-- C2 counterexample: on `criticalMetrics` a Critical tier fired, yet
the returned list does not put urgent lines before every non-urgent
line — the synthesized summary line at position 0 is not urgent-marked
while position 1 is. -/
theorem c2_counterexample :
    (∃ p ∈ (assessStep criticalMetrics sampleTiming freshAggState).1.agentAssessments,
      ∃ tr, p.2 = AgentOutcome.ok tr ∧ 75 ≤ tr.base.riskScore) ∧
    ¬ UrgentFirst
      (assessStep criticalMetrics sampleTiming freshAggState).1.integratedRecommendations := by
  refine ⟨criticalMetrics_fired, ?_⟩
  intro hUF
  obtain ⟨hlen, first, us, rs, heq, hfirst, hus, hrs, hne⟩ :=
    integrate_structure
      [("cardio", toOutcome (cardioTimed criticalMetrics sampleTiming.cardioSec)),
       ("metabolic", toOutcome (metabolicTimed criticalMetrics sampleTiming.metabolicSec)),
       ("neuro", toOutcome (neuroTimed criticalMetrics sampleTiming.neuroSec))]
  have husne : us ≠ [] :=
    hne (critical_fired_urgent_nonempty criticalMetrics sampleTiming criticalMetrics_fired)
  cases us with
  | nil => exact husne rfl
  | cons u us' =>
    have hl : (assessStep criticalMetrics sampleTiming freshAggState).1.integratedRecommendations =
        first :: u :: (us' ++ rs) := by
      rw [show (assessStep criticalMetrics sampleTiming freshAggState).1.integratedRecommendations =
        integrateRecommendations
          [("cardio", toOutcome (cardioTimed criticalMetrics sampleTiming.cardioSec)),
           ("metabolic", toOutcome (metabolicTimed criticalMetrics sampleTiming.metabolicSec)),
           ("neuro", toOutcome (neuroTimed criticalMetrics sampleTiming.neuroSec))] from rfl,
        heq]
      simp
    rw [hl] at hUF
    have h01 := hUF ⟨1, by simp⟩ ⟨0, by simp⟩
      (by simpa using hus u (List.mem_cons_self _ _)) (by simpa using hfirst)
    simp at h01

/-- C2 (amended): the Aggregator's integratedRecommendations list always
has at most 15 entries and consists of one synthesized (non-urgent)
summary line followed by all urgent-marked lines and then only
non-urgent lines; whenever some evaluator's Critical tier fired, the
urgent segment is nonempty (so the urgent line appears, preceded only by
the summary line). -/
theorem c2_recommendation_order (d : HData) (t : Timing) (st : AggState) :
    ((assessStep d t st).1.integratedRecommendations).length ≤ 15 ∧
    ∃ first us rs,
      (assessStep d t st).1.integratedRecommendations = first :: (us ++ rs) ∧
      isUrgent first = false ∧ (∀ u ∈ us, isUrgent u = true) ∧
      (∀ x ∈ rs, isUrgent x = false) ∧
      ((∃ p ∈ (assessStep d t st).1.agentAssessments, ∃ tr,
          p.2 = AgentOutcome.ok tr ∧ 75 ≤ tr.base.riskScore) → us ≠ []) := by
  obtain ⟨hlen, first, us, rs, heq, hfirst, hus, hrs, hne⟩ :=
    integrate_structure
      [("cardio", toOutcome (cardioTimed d t.cardioSec)),
       ("metabolic", toOutcome (metabolicTimed d t.metabolicSec)),
       ("neuro", toOutcome (neuroTimed d t.neuroSec))]
  exact ⟨hlen, first, us, rs, heq, hfirst, hus, hrs,
    fun hf => hne (critical_fired_urgent_nonempty d t hf)⟩

/-- Closed instance of C2 (amended) at `criticalMetrics`, with the
Critical-fired implication discharged. -/
theorem c2_recommendation_order_witness :
    ((assessStep criticalMetrics sampleTiming freshAggState).1.integratedRecommendations).length ≤ 15 ∧
    ∃ first us rs,
      (assessStep criticalMetrics sampleTiming freshAggState).1.integratedRecommendations =
        first :: (us ++ rs) ∧
      isUrgent first = false ∧ (∀ u ∈ us, isUrgent u = true) ∧
      (∀ x ∈ rs, isUrgent x = false) ∧ us ≠ [] := by
  obtain ⟨hlen, first, us, rs, heq, hfirst, hus, hrs, hne⟩ :=
    c2_recommendation_order criticalMetrics sampleTiming freshAggState
  exact ⟨hlen, first, us, rs, heq, hfirst, hus, hrs, hne criticalMetrics_fired⟩

/-- Closed instance of C1: with the Metabolic evaluator failing
validation and the other two succeeding, the aggregate is complete and
its index is the renormalized weighted average. -/
theorem c1_fault_isolation_weighted_index_witness :
    ((assessStep partialMetrics sampleTiming freshAggState).1.agentAssessments.map
      Prod.fst = agentNames) ∧
    (assessStep partialMetrics sampleTiming freshAggState).1.overallHealthIndex =
      pyRound2
        (((okWeightPairs (assessStep partialMetrics sampleTiming
              freshAggState).1.agentAssessments).map (fun q => q.1 * q.2)).sum /
          ((okWeightPairs (assessStep partialMetrics sampleTiming
              freshAggState).1.agentAssessments).map Prod.fst).sum) := by
  have hf : (∃ e, cardioAssess partialMetrics = .error e) ∨
      (∃ e, metabolicAssess partialMetrics = .error e) ∨
      (∃ e, neuroAssess partialMetrics = .error e) := by
    right; left
    exact ⟨validationMsg "MetabolicAgent" ["weight_kg", "height_cm"],
      by simp [metabolicAssess, missingFields, metabolicRequired, findVal,
        partialMetrics, validationMsg]⟩
  have ho : (∃ r, cardioAssess partialMetrics = .ok r) ∨
      (∃ r, metabolicAssess partialMetrics = .ok r) ∨
      (∃ r, neuroAssess partialMetrics = .ok r) := by
    left
    obtain ⟨r, hr, _⟩ := cardioAssess_ok partialMetrics
      (by simp [missingFields, cardioRequired, partialMetrics, findVal])
    exact ⟨r, hr⟩
  have h := c1_fault_isolation_weighted_index partialMetrics sampleTiming
    freshAggState hf ho
  exact ⟨h.1, h.2.2.2.2⟩

/- ------------------------------------------------------------------
C8: assessment log and performance stats
------------------------------------------------------------------ -/

theorem runAssessments_log_length (runs : List (HData × Timing)) :
    ∀ st : AggState, (runAssessments runs st).assessmentLog.length =
      st.assessmentLog.length + runs.length := by
  induction runs with
  | nil => intro st; simp [runAssessments]
  | cons p ps ih =>
    intro st
    have hstep : runAssessments (p :: ps) st =
        runAssessments ps (assessStep p.1 p.2 st).2 := rfl
    rw [hstep, ih]
    have hlog : (assessStep p.1 p.2 st).2.assessmentLog.length =
        st.assessmentLog.length + 1 := by
      simp [assessStep]
    rw [hlog]
    simp only [List.length_cons]
    omega

/-- C8: N assess_comprehensive_risk calls on one fresh aggregator append
exactly N entries to its assessment log (each call appends one, none are
removed), get_overall_performance_stats reports total_assessments = N,
and for N ≥ 1 the performance_target_met flag is true exactly when the
average logged total time is at most 3000 ms. -/
theorem c8_log_and_stats (runs : List (HData × Timing)) :
    (∀ (d : HData) (t : Timing) (st : AggState),
      ∃ e, (assessStep d t st).2.assessmentLog = st.assessmentLog ++ [e]) ∧
    (runAssessments runs freshAggState).assessmentLog.length = runs.length ∧
    (getOverallPerformanceStats (runAssessments runs freshAggState)).totalAssessments =
      runs.length ∧
    (runs ≠ [] →
      ((getOverallPerformanceStats (runAssessments runs
          freshAggState)).performanceTargetMet = some true ↔
        ((runAssessments runs freshAggState).assessmentLog.map
            (fun e => e.totalTimeMs)).sum /
          (((runAssessments runs freshAggState).assessmentLog.length : ℚ)) ≤ 3000)) := by
  have hlen : (runAssessments runs freshAggState).assessmentLog.length = runs.length := by
    have := runAssessments_log_length runs freshAggState
    simpa [freshAggState] using this
  refine ⟨fun d t st => ⟨_, rfl⟩, hlen, ?_, ?_⟩
  · by_cases hnil : (runAssessments runs freshAggState).assessmentLog = []
    · rw [hnil] at hlen
      simp [getOverallPerformanceStats, hnil, ← hlen]
    · simp [getOverallPerformanceStats, hnil, hlen]
  · intro hne
    have hlnil : (runAssessments runs freshAggState).assessmentLog ≠ [] := by
      intro h
      rw [h] at hlen
      exact hne (List.length_eq_zero.mp hlen.symm)
    simp [getOverallPerformanceStats, hlnil, decide_eq_true_iff, List.length_map]

/-- Closed instance of C8 with two assessments: total = 2 and the flag
is true at an average of 50 ms. -/
theorem c8_log_and_stats_witness :
    (getOverallPerformanceStats (runAssessments
      [(sampleMetrics, sampleTiming), (criticalMetrics, sampleTiming)]
      freshAggState)).totalAssessments = 2 ∧
    (getOverallPerformanceStats (runAssessments
      [(sampleMetrics, sampleTiming), (criticalMetrics, sampleTiming)]
      freshAggState)).performanceTargetMet = some true := by
  have h := c8_log_and_stats [(sampleMetrics, sampleTiming), (criticalMetrics, sampleTiming)]
  refine ⟨h.2.2.1, ?_⟩
  rw [h.2.2.2 (by simp)]
  have hlog : (runAssessments
      [(sampleMetrics, sampleTiming), (criticalMetrics, sampleTiming)]
      freshAggState).assessmentLog.map (fun e => e.totalTimeMs) =
      [pyRound2 (sampleTiming.totalSec * 1000), pyRound2 (sampleTiming.totalSec * 1000)] := by
    simp [runAssessments, assessStep, freshAggState]
  have hlen2 : (runAssessments
      [(sampleMetrics, sampleTiming), (criticalMetrics, sampleTiming)]
      freshAggState).assessmentLog.length = 2 := h.2.1
  rw [hlog, hlen2]
  have : pyRound2 (sampleTiming.totalSec * 1000) = 50 := by
    norm_num [sampleTiming, pyRound2, roundHalfEven]
  rw [this]
  norm_num

/- ------------------------------------------------------------------
C9: no mutation of the input dict
------------------------------------------------------------------ -/

/-- C9: at dict-operation granularity, every evaluator's assess_risk,
every assess_with_timing, and the aggregator's
assess_comprehensive_risk return the input dict unchanged (second
component) while computing exactly the results of the direct
definitions (first component). -/
theorem c9_no_input_mutation (d : HData) (t : Timing) (st : AggState) (s : ℚ) :
    cardioAssessSt d = (cardioAssess d, d) ∧
    metabolicAssessSt d = (metabolicAssess d, d) ∧
    neuroAssessSt d = (neuroAssess d, d) ∧
    withTimingSt "CardioAgent" cardioAssessSt cardioRecommendations s d =
      (cardioTimed d s, d) ∧
    withTimingSt "MetabolicAgent" metabolicAssessSt metabolicRecommendations s d =
      (metabolicTimed d s, d) ∧
    withTimingSt "NeuroAgent" neuroAssessSt neuroRecommendations s d =
      (neuroTimed d s, d) ∧
    assessStepSt d t st = (assessStep d t st, d) := by
  refine ⟨rfl, rfl, rfl, ?_, ?_, ?_, ?_⟩
  · cases h : cardioAssess d <;>
      simp [withTimingSt, cardioAssessSt, readMissingOp, readNumOp, readTruthyOp,
        cardioTimed, withTiming, cardioAssess, h]
  · cases h : metabolicAssess d <;>
      simp [withTimingSt, metabolicAssessSt, readMissingOp, readNumOp, readTruthyOp,
        metabolicTimed, withTiming, metabolicAssess, h]
  · cases h : neuroAssess d <;>
      simp [withTimingSt, neuroAssessSt, readMissingOp, readNumOp, readTruthyOp,
        neuroTimed, withTiming, neuroAssess, h]
  · simp [assessStepSt, assessStep, withTimingSt, cardioAssessSt, metabolicAssessSt,
      neuroAssessSt, readMissingOp, readNumOp, readTruthyOp, cardioTimed,
      metabolicTimed, neuroTimed, withTiming, cardioAssess, metabolicAssess,
      neuroAssess]

end MedAILite
